import Mathlib

/-!
Verification development for the Mystic Duel server-side game engine
(`Card.js`, `ServerGame.js`, `cards.js`).

The JavaScript engine is shallowly embedded: each mutating method becomes a
pure Lean function from the old state to the new state.  JavaScript numbers
are modelled as `Int` (all engine arithmetic is integer-valued); JavaScript
booleans as `Bool`; card/ability strings as `String`.  Wall-clock log
timestamps (`Date.now()`) and the random per-card `id` / `emoji` display
field are outside the embedding: no game rule reads them.
-/

/-- Runtime state of one card instance, mirroring the fields initialised by
the `Card` constructor in `Card.js`. -/
structure Card where
  name : String
  cost : Int
  type : String
  attack : Int
  health : Int
  maxHealth : Int
  ability : String
  rarity : String
  tapped : Bool
  frozen : Bool
  hasAttackedThisTurn : Bool
  doubleStrikeUsed : Bool
  windfuryUsed : Bool
  canOnlyAttackCreatures : Bool
  stealth : Bool
  divineShield : Bool
  spellShield : Bool
  vigilance : Bool
  immune : Bool
  tempImmune : Bool
  taunt : Bool
  instantKill : Bool
  enraged : Bool
  deriving Repr, DecidableEq

/-- `new Card(template)` on a plain catalog template (no status fields):
all status flags default to `false`, `maxHealth = health`, and the
constructor promotes the Taunt / Vigilance / Stealth / Divine Shield /
Spell Shield ability tags to their status flags. -/
def Card.fromTemplate (name : String) (cost : Int) (type : String)
    (attack : Int) (health : Int) (ability : String) (rarity : String) : Card :=
  { name := name, cost := cost, type := type, attack := attack,
    health := health, maxHealth := health, ability := ability, rarity := rarity,
    tapped := false, frozen := false, hasAttackedThisTurn := false,
    doubleStrikeUsed := false, windfuryUsed := false,
    canOnlyAttackCreatures := false,
    stealth := ability = "Stealth",
    divineShield := ability = "Divine Shield",
    spellShield := ability = "Spell Shield",
    vigilance := ability = "Vigilance",
    immune := false, tempImmune := false,
    taunt := ability = "Taunt",
    instantKill := false, enraged := false }

/-- Placeholder used for bounds-guarded list reads (`field[i]` is only ever
read after the engine has checked `i` is in range, so this value never
reaches a theorem). -/
def defaultCard : Card := Card.fromTemplate "" 0 "" 0 0 "" ""

/-- `Card.prototype.clone`: a fresh instance from base stats only, at full
health, with no status flags copied. -/
def Card.clone (c : Card) : Card :=
  Card.fromTemplate c.name c.cost c.type c.attack c.maxHealth c.ability c.rarity

/-- `Card.prototype.resetForTurn`: frozen consumes the untap, otherwise
untap; clears the per-turn flags and `tempImmune`; Regenerate restores
full health. -/
def Card.resetForTurn (c : Card) : Card :=
  let c := if c.frozen then { c with frozen := false } else { c with tapped := false }
  let c := { c with hasAttackedThisTurn := false, doubleStrikeUsed := false,
                    windfuryUsed := false, canOnlyAttackCreatures := false,
                    tempImmune := false }
  if c.ability = "Regenerate" then { c with health := c.maxHealth } else c

/-- `Card.prototype.takeDamage(amount)`: returns the updated card and the
`actualDamage` value the method returns.  Non-positive amounts and
immunity deal nothing; an active Divine Shield is consumed and absorbs the
hit; otherwise health drops by `min(amount, health)`; Enrage grants +2
attack once, the first time positive damage leaves the card alive. -/
def Card.takeDamage (c : Card) (amount : Int) : Card × Int :=
  if amount ≤ 0 then (c, 0)
  else if c.immune || c.tempImmune then (c, 0)
  else if c.divineShield then ({ c with divineShield := false }, 0)
  else
    let actualDamage := min amount c.health
    let c := { c with health := c.health - actualDamage }
    if c.ability = "Enrage" ∧ actualDamage > 0 ∧ c.health > 0 ∧ ¬c.enraged then
      ({ c with attack := c.attack + 2, enraged := true }, actualDamage)
    else
      (c, actualDamage)

/-- `Card.prototype.canAttack`. -/
def Card.canAttack (c : Card) : Bool :=
  !c.tapped && !c.frozen && !c.hasAttackedThisTurn

/-- `Card.prototype.markAttacked`: marks the attack and taps (vigilance
stays untapped); Windfury and Double Strike each re-open exactly one more
attack through their per-turn used-flag. -/
def Card.markAttacked (c : Card) : Card :=
  let c := { c with hasAttackedThisTurn := true }
  let c := if ¬c.vigilance then { c with tapped := true } else c
  if c.ability = "Windfury" then
    if ¬c.windfuryUsed then
      { c with tapped := false, hasAttackedThisTurn := false, windfuryUsed := true }
    else
      let c := { c with hasAttackedThisTurn := true }
      if ¬c.vigilance then { c with tapped := true } else c
  else if c.ability = "Double Strike" ∧ ¬c.doubleStrikeUsed then
    { c with doubleStrikeUsed := true, hasAttackedThisTurn := false, tapped := false }
  else if c.ability = "Double Strike" ∧ c.doubleStrikeUsed then
    let c := { c with hasAttackedThisTurn := true }
    if ¬c.vigilance then { c with tapped := true } else c
  else c

/-- `Card.prototype.getDisplayCost(spellsCount)`. -/
def Card.getDisplayCost (c : Card) (spellsCount : Int) : Int :=
  if c.ability = "Costs less per spell" then max 0 (c.cost - spellsCount) else c.cost

example :
    ((Card.fromTemplate "Forest Wolf" 2 "creature" 3 2 "Rush" "common").takeDamage 1).1.health = 1 := by
  decide

/-! ### Card-level lemmas -/

theorem Card.takeDamage_ability (c : Card) (d : Int) :
    (c.takeDamage d).1.ability = c.ability := by
  simp only [Card.takeDamage]
  split_ifs <;> simp

theorem Card.takeDamage_enraged_mono (c : Card) (d : Int) (h : c.enraged = true) :
    (c.takeDamage d).1.enraged = true := by
  simp only [Card.takeDamage]
  split_ifs <;> simp_all

theorem Card.markAttacked_ability (c : Card) :
    c.markAttacked.ability = c.ability := by
  simp only [Card.markAttacked]
  split_ifs <;> simp

/-- Number of times the Enrage branch of `takeDamage` fires across a
sequence of damage events (observed through the one-shot `enraged` flag,
which only that branch sets). -/
def Card.fireCount (c : Card) : List Int → Nat
  | [] => 0
  | d :: ds =>
    let c2 := (c.takeDamage d).1
    (if c.enraged = false ∧ c2.enraged = true then 1 else 0) + c2.fireCount ds

theorem Card.fireCount_of_enraged (c : Card) (ds : List Int) (h : c.enraged = true) :
    c.fireCount ds = 0 := by
  induction ds generalizing c with
  | nil => rfl
  | cons d ds ih =>
    simp only [Card.fireCount, h, Card.takeDamage_enraged_mono c d h]
    simp [ih _ (Card.takeDamage_enraged_mono c d h)]

/-- Count of successful attacks when a creature attempts `n` attacks in a
row within one turn: each attempt goes through only if `canAttack` holds,
and then `markAttacked` runs (exactly the guard `processAttack` uses). -/
def Card.attackRun (c : Card) : Nat → Nat
  | 0 => 0
  | n + 1 => if c.canAttack then 1 + c.markAttacked.attackRun n else c.attackRun n

/-- Upper bound on the attacks still available to a Windfury / Double
Strike creature: one unless it has already attacked, plus one while its
extra-attack flag is unused. -/
def Card.attackPotential (c : Card) : Nat :=
  (if c.hasAttackedThisTurn then 0 else 1) +
    (if c.ability = "Windfury" then (if c.windfuryUsed then 0 else 1)
     else (if c.doubleStrikeUsed then 0 else 1))

theorem Card.markAttacked_potential (c : Card)
    (h : c.ability = "Windfury" ∨ c.ability = "Double Strike")
    (hc : c.canAttack = true) :
    c.markAttacked.attackPotential + 1 ≤ c.attackPotential := by
  have hA : c.hasAttackedThisTurn = false := by
    simp [Card.canAttack] at hc
    tauto
  have hWD : ("Windfury" : String) ≠ "Double Strike" := by decide
  rcases h with h | h
  · simp only [Card.markAttacked, Card.attackPotential, h, hA]
    cases hU : c.windfuryUsed <;> cases hV : c.vigilance <;>
      simp [hU, hV, hWD]
  · simp only [Card.markAttacked, Card.attackPotential, h, hA]
    cases hU : c.doubleStrikeUsed <;> cases hV : c.vigilance <;>
      simp [hU, hV, hWD, Ne.symm hWD]

theorem Card.attackRun_le_potential (c : Card)
    (h : c.ability = "Windfury" ∨ c.ability = "Double Strike") (n : Nat) :
    c.attackRun n ≤ c.attackPotential := by
  induction n generalizing c with
  | zero => simp [Card.attackRun]
  | succ n ih =>
    simp only [Card.attackRun]
    split
    · have h2 : c.markAttacked.ability = "Windfury" ∨ c.markAttacked.ability = "Double Strike" := by
        simpa [Card.markAttacked_ability] using h
      have := ih c.markAttacked h2
      have := c.markAttacked_potential h (by assumption)
      omega
    · exact ih c h

theorem Card.fireCount_le_one (c : Card) (ds : List Int) : c.fireCount ds ≤ 1 := by
  induction ds generalizing c with
  | nil => simp [Card.fireCount]
  | cons d ds ih =>
    by_cases hE : c.enraged = true
    · simp only [Card.fireCount, hE]
      simp [Card.fireCount_of_enraged _ _ (Card.takeDamage_enraged_mono c d hE)]
    · by_cases h2 : (c.takeDamage d).1.enraged = true
      · simp only [Card.fireCount]
        rw [if_pos ⟨by simpa using hE, h2⟩]
        simp [Card.fireCount_of_enraged _ _ h2]
      · simp only [Card.fireCount]
        rw [if_neg (by simp [h2])]
        simpa using ih (c.takeDamage d).1

theorem Card.takeDamage_enrage_iff (c : Card) (d : Int)
    (h : c.ability = "Enrage") (hE : c.enraged = false) :
    ((c.takeDamage d).1.enraged = true ↔
      0 < (c.takeDamage d).2 ∧ 0 < (c.takeDamage d).1.health) := by
  simp only [Card.takeDamage]
  split_ifs <;> simp_all

/-! ### Claims C6, C7, C8 (Card-level) -/

/-- An immune creature carrying an active Divine Shield, as a deck template
may supply (the `Card` constructor preserves status fields present on the
template). -/
def immuneShieldCard : Card :=
  { Card.fromTemplate "Warded Golem" 5 "creature" 3 5 "Divine Shield" "epic" with
      immune := true }

/-- Claim C6 (counterexample): `takeDamage` checks `immune`/`tempImmune`
before Divine Shield, so a hit on an immune shielded creature does NOT
clear the shield — the claim's "a single takeDamage call ... clears the
shield" fails at this input (damage 5). -/
theorem C6_counterexample :
    immuneShieldCard.divineShield = true ∧ 0 < (5 : Int) ∧
      (immuneShieldCard.takeDamage 5).1.divineShield = true := by
  decide

/-- Claim C6 (amended): for a creature with NO active immunity, an active
divineShield makes one positive-damage hit leave health unchanged while
clearing the shield; and any positive-damage hit on an unshielded,
non-immune creature reduces health by `min d health`. -/
theorem C6_divine_shield_amended (c : Card) (d : Int)
    (hI : c.immune = false) (hT : c.tempImmune = false) (hd : 0 < d) :
    (c.divineShield = true →
      (c.takeDamage d).1.health = c.health ∧ (c.takeDamage d).1.divineShield = false) ∧
    (c.divineShield = false →
      (c.takeDamage d).1.health = c.health - min d c.health) := by
  simp only [Card.takeDamage]
  rw [if_neg (by omega)]
  split_ifs <;> simp_all

/-- Witness for C6: evaluates the amended theorem on a concrete shielded
card (hit for 7) and a concrete unshielded card (hit for 2). -/
theorem C6_divine_shield_amended_witness :
    ((Card.fromTemplate "Paladin" 4 "creature" 3 4 "Divine Shield" "rare").takeDamage 7).1.health = 4 ∧
    ((Card.fromTemplate "Paladin" 4 "creature" 3 4 "Divine Shield" "rare").takeDamage 7).1.divineShield = false ∧
    ((Card.fromTemplate "Bear" 3 "creature" 3 3 "" "common").takeDamage 2).1.health = 1 := by
  have h1 := (C6_divine_shield_amended
    (Card.fromTemplate "Paladin" 4 "creature" 3 4 "Divine Shield" "rare") 7
    rfl rfl (by decide)).1 rfl
  have h2 := (C6_divine_shield_amended
    (Card.fromTemplate "Bear" 3 "creature" 3 3 "" "common") 2
    rfl rfl (by decide)).2 rfl
  refine ⟨?_, ?_, ?_⟩
  · exact h1.1
  · exact h1.2
  · rw [h2]; decide

/-- Claim C7: over any sequence of `takeDamage` calls on an Enrage
creature, the +2 Enrage branch fires at most once (tracked by the one-shot
`enraged` flag, set exactly when the branch fires); moreover, from a
not-yet-enraged state a single call fires the branch exactly when it deals
positive damage and leaves health above 0. -/
theorem C7_enrage_at_most_once (c : Card) (ds : List Int)
    (h : c.ability = "Enrage") :
    c.fireCount ds ≤ 1 ∧
      ∀ d : Int, c.enraged = false →
        ((c.takeDamage d).1.enraged = true ↔
          0 < (c.takeDamage d).2 ∧ 0 < (c.takeDamage d).1.health) :=
  ⟨c.fireCount_le_one ds, fun d hE => c.takeDamage_enrage_iff d h hE⟩

/-- Witness for C7: the catalog's Berserker (3/2, Enrage) hit three times
for 1 damage each. -/
theorem C7_enrage_at_most_once_witness :
    (Card.fromTemplate "Berserker" 3 "creature" 3 2 "Enrage" "rare").fireCount [1, 1, 1] ≤ 1 :=
  (C7_enrage_at_most_once
    (Card.fromTemplate "Berserker" 3 "creature" 3 2 "Enrage" "rare") [1, 1, 1] rfl).1

/-- Claim C8: a Windfury creature, and likewise a Double Strike creature,
is granted at most two successful attacks in one turn, over every sequence
of guarded canAttack/markAttacked attempts (no `resetForTurn`
in between), from any starting state. -/
theorem C8_two_attacks_max (c : Card) (n : Nat)
    (h : c.ability = "Windfury" ∨ c.ability = "Double Strike") :
    c.attackRun n ≤ 2 := by
  have h1 := c.attackRun_le_potential h n
  have h2 : c.attackPotential ≤ 2 := by
    unfold Card.attackPotential
    split_ifs <;> omega
  omega

/-- Witness for C8: a fresh Windfury creature attempting five attacks in
one turn lands at most two. -/
theorem C8_two_attacks_max_witness :
    (Card.fromTemplate "Storm Harpy" 4 "creature" 3 3 "Windfury" "rare").attackRun 5 ≤ 2 :=
  C8_two_attacks_max
    (Card.fromTemplate "Storm Harpy" 4 "creature" 3 3 "Windfury" "rare") 5 (Or.inl rfl)

/-! ### Game state (`ServerGame.js`) -/

/-- One entry of the bounded game log.  The JS entry also stores a
`Date.now()` wall-clock timestamp, which is outside the embedding. -/
structure LogEntry where
  message : String
  turn : Int
  activePlayer : Nat
  deriving Repr, DecidableEq

/-- One side's zones and resources, as initialised in the `ServerGame`
constructor. -/
structure Player where
  health : Int
  maxHealth : Int
  mana : Int
  maxMana : Int
  hand : List Card
  deck : List Card
  field : List Card
  graveyard : List Card
  spellsCount : Int
  spellPower : Int
  deriving Repr, DecidableEq

/-- The two-player match state (`roomId` is an opaque session label). -/
structure Game where
  roomId : String
  p0 : Player
  p1 : Player
  currentTurn : Fin 2
  turnNumber : Int
  totalTurns : Int
  gameOver : Bool
  winner : Option Nat
  gameLog : List LogEntry
  deriving Repr, DecidableEq

/-- `1 - playerIndex`, the opposing side. -/
def other (i : Fin 2) : Fin 2 := if i = 0 then 1 else 0

def Game.player (g : Game) (i : Fin 2) : Player :=
  if i = 0 then g.p0 else g.p1

def Game.setPlayer (g : Game) (i : Fin 2) (p : Player) : Game :=
  if i = 0 then { g with p0 := p } else { g with p1 := p }

def Game.setField (g : Game) (i : Fin 2) (f : List Card) : Game :=
  g.setPlayer i { g.player i with field := f }

/-- `addLog(message)`: append `{message, turn, activePlayer}` and keep only
the last 20 entries. -/
def Game.addLog (g : Game) (message : String) : Game :=
  let log := g.gameLog ++
    [{ message := message, turn := g.turnNumber, activePlayer := g.currentTurn.val + 1 }]
  { g with gameLog := if log.length > 20 then log.drop (log.length - 20) else log }

/-- `checkGameOver()`: player 0 is checked first; the losing side's
opponent is declared winner and the `gameOver` flag latches. -/
def Game.checkGameOver (g : Game) : Game :=
  if g.p0.health ≤ 0 ∧ g.gameOver = false then
    ({ g with gameOver := true, winner := some 1 }).addLog "Player 2 wins!"
  else if g.p1.health ≤ 0 ∧ g.gameOver = false then
    ({ g with gameOver := true, winner := some 0 }).addLog "Player 1 wins!"
  else g

/-- `updateSpellPower()`: each side's spellPower is its count of
"Spell Power +1" field creatures. -/
def Game.updateSpellPower (g : Game) : Game :=
  { g with
    p0 := { g.p0 with
      spellPower := ((g.p0.field.filter fun c => c.ability == "Spell Power +1").length : Int) },
    p1 := { g.p1 with
      spellPower := ((g.p1.field.filter fun c => c.ability == "Spell Power +1").length : Int) } }

/-- `drawCard(playerIndex)`: move the top deck card to the hand when the
deck is non-empty and the hand holds fewer than 10 cards; otherwise a
silent no-op. -/
def Game.drawCard (g : Game) (i : Fin 2) : Game :=
  let player := g.player i
  match player.deck with
  | [] => g
  | card :: rest =>
    if player.hand.length < 10 then
      (g.setPlayer i { player with deck := rest, hand := player.hand ++ [card] }).addLog
        ("Player " ++ toString (i.val + 1) ++ " drew " ++ card.name)
    else g

/-- `n` consecutive `drawCard` calls (the JS `for` loops around it). -/
def Game.drawLoop (g : Game) (i : Fin 2) : Nat → Game
  | 0 => g
  | n + 1 => (g.drawCard i).drawLoop i n

/-- Character-list prefix test. -/
def listPrefixOf : List Char → List Char → Bool
  | [], _ => true
  | _ :: _, [] => false
  | a :: as, b :: bs => a == b && listPrefixOf as bs

/-- Character-list infix test. -/
def listInfixOf (needle : List Char) : List Char → Bool
  | [] => listPrefixOf needle []
  | b :: bs => listPrefixOf needle (b :: bs) || listInfixOf needle bs

/-- JavaScript `String.prototype.includes`. -/
def jsIncludes (s sub : String) : Bool :=
  listInfixOf sub.toList s.toList

/-- Digit-run accumulator for `extractNat`. -/
def takeDigits : List Char → Nat → Nat
  | [], acc => acc
  | ch :: rest, acc =>
    if ch.isDigit then takeDigits rest (acc * 10 + (ch.toNat - 48)) else acc

/-- First decimal number in a character list, if any. -/
def firstNumber : List Char → Option Nat
  | [] => none
  | ch :: rest =>
    if ch.isDigit then some (takeDigits rest (ch.toNat - 48)) else firstNumber rest

/-- JavaScript `parseInt(s.match(/\d+/)?.[0])`: the first run of digits. -/
def extractNat (s : String) : Option Nat :=
  firstNumber s.toList

/-- Body of `checkCreatureDeaths`'s filter over one field: dead creatures
trigger Deathrattle-Draw / Resurrect, then move to the graveyard;
survivors are kept in order (the field is reassigned at the end, and no
death effect reads the field itself). -/
def deathSweepAux (i : Fin 2) : List Card → Game → List Card → Game
  | [], g, acc => g.setField i acc.reverse
  | c :: rest, g, acc =>
    if c.health ≤ 0 then
      let g := g.addLog (c.name ++ " was destroyed!")
      let g := if c.ability = "Deathrattle: Draw" then
          (g.drawCard i).addLog "Deathrattle: Drew a card!"
        else g
      let g := if c.ability = "Resurrect" then
          (if (g.player i).hand.length < 10 then
            (g.setPlayer i { g.player i with hand := (g.player i).hand ++
              [Card.fromTemplate c.name c.cost c.type c.attack c.maxHealth c.ability c.rarity] }).addLog
              (c.name ++ " returns to hand!")
          else g)
        else g
      let g := g.setPlayer i { g.player i with graveyard := (g.player i).graveyard ++ [c] }
      deathSweepAux i rest g acc
    else deathSweepAux i rest g (c :: acc)

/-- `checkCreatureDeaths()`: sweep player 0's field, then player 1's, then
recompute spell power. -/
def Game.checkCreatureDeaths (g : Game) : Game :=
  let g := deathSweepAux 0 (g.player 0).field g []
  let g := deathSweepAux 1 (g.player 1).field g []
  g.updateSpellPower

/-- `creatureCombat(attackerOwner, attacker, target)` with the two cards
addressed by their field positions (the JS method mutates them through
references; nothing reads the fields again until the death sweep, so the
updated cards are written back just before it). -/
def Game.creatureCombat (g : Game) (i : Fin 2) (aIdx tIdx : Nat) : Game :=
  let attacker := (g.player i).field.getD aIdx defaultCard
  let target := (g.player (other i)).field.getD tIdx defaultCard
  if target.immune || target.tempImmune then
    g.addLog (target.name ++ " is Immune!")
  else
    let attackerDamage := attacker.attack
    let targetDamage := target.attack
    let td := if target.divineShield then
        ({ target with divineShield := false }, (0 : Int),
          g.addLog (target.name ++ "\x27s Divine Shield absorbs the damage!"))
      else (target, attackerDamage, g)
    let target := td.1
    let attackerDamage := td.2.1
    let g := td.2.2
    let ad := if attacker.divineShield ∧ targetDamage > 0 then
        ({ attacker with divineShield := false }, (0 : Int),
          g.addLog (attacker.name ++ "\x27s Divine Shield absorbs the damage!"))
      else (attacker, targetDamage, g)
    let attacker := ad.1
    let targetDamage := ad.2.1
    let g := ad.2.2
    let fs :=
      if attacker.ability = "First Strike" ∧ ¬(jsIncludes target.ability "First Strike" = true) then
        let r1 := target.takeDamage attackerDamage
        let target := r1.1
        let g := if target.ability = "Enrage" ∧ target.health > 0 then
            g.addLog (target.name ++ " enrages! +2 attack!") else g
        if target.health > 0 then
          let r2 := attacker.takeDamage targetDamage
          let attacker := r2.1
          let g := if attacker.ability = "Enrage" ∧ attacker.health > 0 then
              g.addLog (attacker.name ++ " enrages! +2 attack!") else g
          (attacker, target, g)
        else (attacker, target, g)
      else if target.ability = "First Strike" ∧ ¬(jsIncludes attacker.ability "First Strike" = true) then
        let r1 := attacker.takeDamage targetDamage
        let attacker := r1.1
        let g := if attacker.ability = "Enrage" ∧ attacker.health > 0 then
            g.addLog (attacker.name ++ " enrages! +2 attack!") else g
        if attacker.health > 0 then
          let r2 := target.takeDamage attackerDamage
          let target := r2.1
          let g := if target.ability = "Enrage" ∧ target.health > 0 then
              g.addLog (target.name ++ " enrages! +2 attack!") else g
          (attacker, target, g)
        else (attacker, target, g)
      else
        let r1 := target.takeDamage attackerDamage
        let r2 := attacker.takeDamage targetDamage
        let target := r1.1
        let attacker := r2.1
        let g := if target.ability = "Enrage" ∧ target.health > 0 ∧ r1.2 > 0 then
            g.addLog (target.name ++ " enrages! +2 attack!") else g
        let g := if attacker.ability = "Enrage" ∧ attacker.health > 0 ∧ r2.2 > 0 then
            g.addLog (attacker.name ++ " enrages! +2 attack!") else g
        (attacker, target, g)
    let attacker := fs.1
    let target := fs.2.1
    let g := fs.2.2
    let pz := if (attacker.ability = "Poison" ∨ attacker.ability = "Deathtouch" ∨
          attacker.ability = "Instant kill" ∨ attacker.instantKill = true) ∧ attackerDamage > 0 then
        ({ target with health := 0 },
          g.addLog (attacker.name ++ "\x27s deadly ability destroys " ++ target.name ++ "!"))
      else (target, g)
    let target := pz.1
    let g := pz.2
    let pz2 := if (target.ability = "Poison" ∨ target.ability = "Deathtouch") ∧ targetDamage > 0 then
        ({ attacker with health := 0 },
          g.addLog (target.name ++ "\x27s deadly ability destroys " ++ attacker.name ++ "!"))
      else (attacker, g)
    let attacker := pz2.1
    let g := pz2.2
    let fz := if attacker.ability = "Freeze enemy" ∧ target.health > 0 then
        ({ target with frozen := true }, g.addLog (target.name ++ " is frozen!"))
      else (target, g)
    let target := fz.1
    let g := fz.2
    let g := if attacker.ability = "Trample" ∧ target.health ≤ 0 then
        (let excess := |target.health|
         if excess > 0 then
           ((g.setPlayer (other i)
              { g.player (other i) with health := (g.player (other i)).health - excess }).addLog
             ("Trample deals " ++ toString excess ++ " excess damage!")).checkGameOver
         else g)
      else g
    let g := if (jsIncludes attacker.ability "Lifesteal" || jsIncludes attacker.ability "Lifelink") ∧
          attackerDamage > 0 then
        (let healAmount := min attackerDamage
           (if target.maxHealth = 0 then attackerDamage else target.maxHealth)
         (g.setPlayer i
            { g.player i with health := min (g.player i).maxHealth ((g.player i).health + healAmount) }).addLog
           ("Lifesteal heals for " ++ toString healAmount ++ "!"))
      else g
    let g := g.addLog (attacker.name ++ " battles " ++ target.name ++ "!")
    let g := g.setField i ((g.player i).field.set aIdx attacker)
    let g := g.setField (other i) ((g.player (other i)).field.set tIdx target)
    g.checkCreatureDeaths

/-- `getCardCost(card, playerIndex)`: "Costs less per spell" cards cost
`max 0 (cost - spellsCount)`, others their base cost. -/
def Game.getCardCost (g : Game) (card : Card) (i : Fin 2) : Int :=
  if card.ability = "Costs less per spell" then
    max 0 (card.cost - (g.player i).spellsCount)
  else card.cost

/-- The JS `target` argument of `playCard`/`handleSpell`: `undefined`,
`null`, a string, or a number. -/
inductive PlayTarget
  | undef
  | null
  | str (s : String)
  | num (n : Int)
  deriving Repr, DecidableEq

/-- The AOE enter-play effect: each opposing creature takes 2, logging any
non-zero damage (the field is reassigned at the end; no step reads it). -/
def aoeSweepAux (j : Fin 2) : List Card → Game → List Card → Game
  | [], g, acc => g.setField j acc.reverse
  | c :: rest, g, acc =>
    let r := c.takeDamage 2
    let g := if r.2 > 0 then
        g.addLog (c.name ++ " takes " ++ toString r.2 ++ " AOE damage!")
      else g
    aoeSweepAux j rest g (r.1 :: acc)

/-- `handleEnterPlayAbilities(playerIndex, card)`. -/
def Game.handleEnterPlayAbilities (g : Game) (i : Fin 2) (card : Card) : Game :=
  let ability := card.ability
  if ability = "Draw a card" ∨ ability = "Draw 2 cards" ∨ ability = "Draw 3 cards" then
    g.drawLoop i ((extractNat ability).getD 1)
  else if ability = "Battlecry: Damage" then
    ((g.setPlayer (other i)
        { g.player (other i) with health := (g.player (other i)).health - 2 }).addLog
      (card.name ++ "\x27s Battlecry deals 2 damage!")).checkGameOver
  else if ability = "AOE damage" then
    (aoeSweepAux (other i) (g.player (other i)).field g []).checkCreatureDeaths
  else if ability = "Summon skeletons" then
    let skeleton : Card :=
      { Card.fromTemplate "Skeleton" 0 "creature" 1 1 "" "common" with tapped := true }
    let g := if (g.player i).field.length < 7 then
        g.setPlayer i { g.player i with field := (g.player i).field ++ [skeleton] }
      else g
    let g := if (g.player i).field.length < 7 then
        g.setPlayer i { g.player i with field := (g.player i).field ++ [skeleton] }
      else g
    g.addLog "Summoned 2 Skeleton tokens!"
  else if ability = "Spell Power +1" then
    g.updateSpellPower
  else g

/-- `playCreature(playerIndex, card)`: summoning sickness unless
Rush/Quick/Charge/Haste, ability status flags, enter-play effects, then a
spell-power recount. -/
def Game.playCreature (g : Game) (i : Fin 2) (card : Card) : Game :=
  let card := { card with tapped := true, frozen := false,
                          hasAttackedThisTurn := false, doubleStrikeUsed := false }
  let card :=
    if card.ability = "Rush" then
      { card with tapped := false, canOnlyAttackCreatures := true }
    else if card.ability = "Quick" ∨ card.ability = "Charge" ∨ card.ability = "Haste" then
      { card with tapped := false }
    else card
  let card := if card.ability = "Vigilance" then { card with vigilance := true } else card
  let card := if card.ability = "Taunt" then { card with taunt := true } else card
  let card := if card.ability = "Divine Shield" then { card with divineShield := true } else card
  let card := if card.ability = "Stealth" then { card with stealth := true } else card
  let card := if card.ability = "Spell Shield" then { card with spellShield := true } else card
  let g := g.setPlayer i { g.player i with field := (g.player i).field ++ [card] }
  let g := g.handleEnterPlayAbilities i card
  g.updateSpellPower

/-- The creature-target arm of a "Deal" spell: clamped damage to the
indexed opposing creature, the damage log, the optional "Freeze" rider,
then the death sweep. -/
def Game.spellHitCreature (g : Game) (i : Fin 2) (card : Card) (n : Nat) (damage : Int) : Game :=
  let tc := (g.player (other i)).field.getD n defaultCard
  let r := tc.takeDamage damage
  let g := g.setField (other i) ((g.player (other i)).field.set n r.1)
  let g := g.addLog (card.name ++ " deals " ++ toString r.2 ++ " damage to " ++ tc.name ++ "!")
  let g := if jsIncludes card.ability "Freeze" then
      (g.setField (other i)
        ((g.player (other i)).field.set n { r.1 with frozen := true })).addLog
        (tc.name ++ " is frozen!")
    else g
  g.checkCreatureDeaths

/-- `handleSpell(playerIndex, card, target)`.  (For a "Deal" ability with
no digit the JS `parseInt(match[0])` would throw; no catalog spell is
digit-free, and the `getD 0` default is never reached by a theorem.) -/
def Game.handleSpell (g : Game) (i : Fin 2) (card : Card) (target : PlayTarget) : Game :=
  let ability := card.ability
  if jsIncludes ability "Deal" then
    let baseDamage := ((extractNat ability).getD 0 : Int)
    let damage := baseDamage + (g.player i).spellPower
    if target = .str "opponent" ∨ target = .undef ∨ target = .num (-1) then
      ((g.setPlayer (other i)
          { g.player (other i) with health := (g.player (other i)).health - damage }).addLog
        (card.name ++ " deals " ++ toString damage ++ " damage to opponent!")).checkGameOver
    else
      match target with
      | .num n =>
        if 0 ≤ n ∧ n < ((g.player (other i)).field.length : Int) then
          g.spellHitCreature i card n.toNat damage
        else g
      | _ => g
  else if jsIncludes ability "Restore" then
    let heal := ((extractNat ability).getD 0 : Int)
    (g.setPlayer i
        { g.player i with health := min (g.player i).maxHealth ((g.player i).health + heal) }).addLog
      ("Restored " ++ toString heal ++ " health!")
  else if ability = "All allies +1/+1" ∨ ability = "All allies +2/+2" then
    let buff : Int := if jsIncludes ability "+2/+2" then 2 else 1
    let g := g.setField i ((g.player i).field.map fun c =>
      { c with attack := c.attack + buff, health := c.health + buff,
               maxHealth := c.maxHealth + buff })
    g.addLog ("All allies get +" ++ toString buff ++ "/+" ++ toString buff ++ "!")
  else if jsIncludes ability "Draw" then
    g.drawLoop i ((extractNat ability).getD 2)
  else g

/-- The JS ternary `actualCost !== null ? actualCost : getCardCost(...)`:
the effective cost charged by `playCard`. -/
def Game.effCost (g : Game) (card : Card) (i : Fin 2) (actualCost : Option Int) : Int :=
  match actualCost with
  | some c => c
  | none => g.getCardCost card i

/-- `playCard(playerIndex, cardIndex, target, actualCost)`: bounds check,
cost check (`actualCost` overrides the computed cost when supplied), field
capacity check for creatures; on acceptance the card leaves the hand, mana
is deducted, and the creature/spell branch runs before the play is
logged. -/
def Game.playCard (g : Game) (i : Fin 2) (cardIndex : Int) (target : PlayTarget)
    (actualCost : Option Int) : Bool × Game :=
  let player := g.player i
  if cardIndex < 0 ∨ (player.hand.length : Int) ≤ cardIndex then (false, g)
  else
    let card := player.hand.getD cardIndex.toNat defaultCard
    let cost := g.effCost card i actualCost
    if cost > player.mana then (false, g)
    else if card.type = "creature" ∧ 7 ≤ player.field.length then (false, g)
    else
      let g := g.setPlayer i
        { player with hand := player.hand.eraseIdx cardIndex.toNat, mana := player.mana - cost }
      let g :=
        if card.type = "creature" then g.playCreature i card
        else if card.type = "spell" then
          let g := g.setPlayer i { g.player i with spellsCount := (g.player i).spellsCount + 1 }
          let g := g.handleSpell i card target
          g.setPlayer i { g.player i with graveyard := (g.player i).graveyard ++ [card] }
        else g
      (true, g.addLog ("Player " ++ toString (i.val + 1) ++ " played " ++ card.name))

/-- `processAttack(playerIndex, attackerIndex, targetIndex)`:
`targetIndex = -1` is a face attack.  The legality checks run in source
order, each rejection returning `false` (all but the index check also log
a rejection message); on success the attacker loses Stealth, is marked as
having attacked, and either hits the face (with Lifesteal healing and a
game-over check) or enters creature combat. -/
def Game.processAttack (g : Game) (i : Fin 2) (attackerIndex targetIndex : Int) : Bool × Game :=
  let player := g.player i
  let opponent := g.player (other i)
  if attackerIndex < 0 ∨ (player.field.length : Int) ≤ attackerIndex then (false, g)
  else
    let attacker := player.field.getD attackerIndex.toNat defaultCard
    if attacker.canAttack = false then
      (false, g.addLog (attacker.name ++ " cannot attack right now!"))
    else if targetIndex = -1 ∧ attacker.canOnlyAttackCreatures = true then
      (false, g.addLog (attacker.name ++ " with Rush can only attack creatures this turn!"))
    else
      let taunts := opponent.field.filter fun c => c.ability == "Taunt" || c.taunt
      if 0 < taunts.length ∧ targetIndex = -1 then
        (false, g.addLog "Must attack Taunt creatures first!")
      else if 0 < taunts.length ∧ 0 ≤ targetIndex ∧ targetIndex < (opponent.field.length : Int) ∧
          (opponent.field.getD targetIndex.toNat defaultCard).taunt = false ∧
          (opponent.field.getD targetIndex.toNat defaultCard).ability ≠ "Taunt" then
        (false, g.addLog "Must attack Taunt creatures first!")
      else if 0 ≤ targetIndex ∧ targetIndex < (opponent.field.length : Int) ∧
          (opponent.field.getD targetIndex.toNat defaultCard).tapped = false ∧
          (opponent.field.getD targetIndex.toNat defaultCard).taunt = false ∧
          (opponent.field.getD targetIndex.toNat defaultCard).ability ≠ "Taunt" then
        (false, g.addLog "Cannot attack defending creatures!")
      else if 0 ≤ targetIndex ∧ targetIndex < (opponent.field.length : Int) ∧
          (opponent.field.getD targetIndex.toNat defaultCard).stealth = true then
        (false, g.addLog "Cannot attack stealthed creatures!")
      else if 0 ≤ targetIndex ∧ targetIndex < (opponent.field.length : Int) ∧
          (opponent.field.getD targetIndex.toNat defaultCard).ability = "Flying" ∧
          attacker.ability ≠ "Flying" ∧ attacker.ability ≠ "Reach" then
        (false, g.addLog "Cannot reach flying creatures without Flying or Reach!")
      else
        let g := if attacker.stealth then
            (g.setField i (player.field.set attackerIndex.toNat
              { attacker with stealth := false })).addLog (attacker.name ++ " loses stealth!")
          else g
        let attacker := ((g.player i).field.getD attackerIndex.toNat defaultCard).markAttacked
        let g := g.setField i ((g.player i).field.set attackerIndex.toNat attacker)
        if targetIndex = -1 then
          let damage := attacker.attack
          let g := g.setPlayer (other i)
            { g.player (other i) with health := (g.player (other i)).health - damage }
          let g := g.addLog (attacker.name ++ " attacks for " ++ toString damage ++ " damage!")
          let g := if jsIncludes attacker.ability "Lifesteal" || jsIncludes attacker.ability "Lifelink" then
              (g.setPlayer i
                { g.player i with
                  health := min (g.player i).maxHealth ((g.player i).health + damage) }).addLog
                ("Lifesteal heals for " ++ toString damage ++ "!")
            else g
          (true, g.checkGameOver)
        else if 0 ≤ targetIndex ∧ targetIndex < ((g.player (other i)).field.length : Int) then
          (true, g.creatureCombat i attackerIndex.toNat targetIndex.toNat)
        else (true, g)

/-- `startNewTurn(playerIndex)`: mana ramp (cap 10) and refill, reset only
the incoming player's creatures, Burn damage from the opposing field (with
a game-over check), one draw, and the turn-begins log entry. -/
def Game.startNewTurn (g : Game) (i : Fin 2) : Game :=
  let mm := min 10 ((g.player i).maxMana + 1)
  let g := g.setPlayer i
    { g.player i with maxMana := mm, mana := mm,
                      field := (g.player i).field.map Card.resetForTurn }
  let burnCount := ((g.player (other i)).field.filter fun c => c.ability == "Burn").length
  let g := if 0 < burnCount then
      ((g.setPlayer i
          { g.player i with health := (g.player i).health - burnCount }).addLog
        ("Burn deals " ++ toString burnCount ++ " damage to Player " ++ toString (i.val + 1) ++ "!")).checkGameOver
    else g
  let g := g.drawCard i
  g.addLog ("Player " ++ toString (i.val + 1) ++ "\x27s turn begins!")

/-- `endTurn(playerIndex)`: rejected (with no state change) unless it is
that player's turn; otherwise clear `tempImmune` everywhere, flip the
turn, bump the counters, and run `startNewTurn` for the incoming
player. -/
def Game.endTurn (g : Game) (playerIndex : Fin 2) : Bool × Game :=
  if g.currentTurn ≠ playerIndex then (false, g)
  else
    let clearImmune : Card → Card := fun c => { c with tempImmune := false }
    let g := { g with
      p0 := { g.p0 with field := g.p0.field.map clearImmune },
      p1 := { g.p1 with field := g.p1.field.map clearImmune } }
    let g := { g with currentTurn := other g.currentTurn, totalTurns := g.totalTurns + 1 }
    let g := if g.currentTurn = 0 then { g with turnNumber := g.turnNumber + 1 } else g
    (true, g.startNewTurn g.currentTurn)

/-! ### Client views (`getGameState` / `getPlayerState`) -/

/-- A hand as serialised to a client: either the full card list or, for a
hidden hand, only `{ length }`. -/
inductive HandView
  | full (cards : List Card)
  | count (n : Nat)
  deriving Repr, DecidableEq

/-- One player's slice of the serialised game state; the deck is always
sent as `{ length }` only. -/
structure PlayerView where
  health : Int
  maxHealth : Int
  mana : Int
  maxMana : Int
  hand : HandView
  deckLength : Nat
  field : List Card
  graveyard : List Card
  spellsCount : Int
  spellPower : Int
  deriving Repr, DecidableEq

/-- The serialised game state sent for client sync. -/
structure GameView where
  v0 : PlayerView
  v1 : PlayerView
  currentTurn : Fin 2
  turnNumber : Int
  totalTurns : Int
  gameOver : Bool
  winner : Option Nat
  gameLog : List LogEntry
  deriving Repr, DecidableEq

def viewOfPlayer (p : Player) : PlayerView :=
  { health := p.health, maxHealth := p.maxHealth, mana := p.mana, maxMana := p.maxMana,
    hand := .full p.hand, deckLength := p.deck.length, field := p.field,
    graveyard := p.graveyard, spellsCount := p.spellsCount, spellPower := p.spellPower }

/-- `getGameState()`: both hands in full, both decks as lengths only, and
the last 5 log entries. -/
def Game.getGameState (g : Game) : GameView :=
  { v0 := viewOfPlayer g.p0, v1 := viewOfPlayer g.p1,
    currentTurn := g.currentTurn, turnNumber := g.turnNumber, totalTurns := g.totalTurns,
    gameOver := g.gameOver, winner := g.winner,
    gameLog := if 5 < g.gameLog.length then g.gameLog.drop (g.gameLog.length - 5) else g.gameLog }

/-- `getPlayerState(playerIndex)`: `getGameState` with the opponent's hand
replaced by `{ length }`. -/
def Game.getPlayerState (g : Game) (i : Fin 2) : GameView :=
  let state := g.getGameState
  if other i = 0 then
    { state with v0 := { state.v0 with hand := .count (g.p0.hand.length) } }
  else
    { state with v1 := { state.v1 with hand := .count (g.p1.hand.length) } }

/-! ### Projection toolkit -/

theorem Game.player_setPlayer (g : Game) (i : Fin 2) (p : Player) (j : Fin 2) :
    (g.setPlayer i p).player j = if j = i then p else g.player j := by
  unfold Game.setPlayer Game.player
  fin_cases i <;> fin_cases j <;> simp

theorem Game.setPlayer_currentTurn (g : Game) (i : Fin 2) (p : Player) :
    (g.setPlayer i p).currentTurn = g.currentTurn := by
  unfold Game.setPlayer; fin_cases i <;> simp

theorem Game.setPlayer_turnNumber (g : Game) (i : Fin 2) (p : Player) :
    (g.setPlayer i p).turnNumber = g.turnNumber := by
  unfold Game.setPlayer; fin_cases i <;> simp

theorem Game.setPlayer_totalTurns (g : Game) (i : Fin 2) (p : Player) :
    (g.setPlayer i p).totalTurns = g.totalTurns := by
  unfold Game.setPlayer; fin_cases i <;> simp

theorem Game.setPlayer_gameOver (g : Game) (i : Fin 2) (p : Player) :
    (g.setPlayer i p).gameOver = g.gameOver := by
  unfold Game.setPlayer; fin_cases i <;> simp

theorem Game.setPlayer_gameLog (g : Game) (i : Fin 2) (p : Player) :
    (g.setPlayer i p).gameLog = g.gameLog := by
  unfold Game.setPlayer; fin_cases i <;> simp

theorem Game.addLog_player (g : Game) (m : String) (j : Fin 2) :
    (g.addLog m).player j = g.player j := rfl

theorem Game.addLog_currentTurn (g : Game) (m : String) :
    (g.addLog m).currentTurn = g.currentTurn := rfl

theorem Game.addLog_turnNumber (g : Game) (m : String) :
    (g.addLog m).turnNumber = g.turnNumber := rfl

theorem Game.addLog_totalTurns (g : Game) (m : String) :
    (g.addLog m).totalTurns = g.totalTurns := rfl

theorem Game.addLog_gameOver (g : Game) (m : String) :
    (g.addLog m).gameOver = g.gameOver := rfl

theorem Game.checkGameOver_player (g : Game) (j : Fin 2) :
    (g.checkGameOver).player j = g.player j := by
  unfold Game.checkGameOver
  split_ifs <;> rfl

theorem Game.checkGameOver_currentTurn (g : Game) :
    (g.checkGameOver).currentTurn = g.currentTurn := by
  unfold Game.checkGameOver
  split_ifs <;> rfl

theorem Game.checkGameOver_turnNumber (g : Game) :
    (g.checkGameOver).turnNumber = g.turnNumber := by
  unfold Game.checkGameOver
  split_ifs <;> rfl

theorem Game.checkGameOver_totalTurns (g : Game) :
    (g.checkGameOver).totalTurns = g.totalTurns := by
  unfold Game.checkGameOver
  split_ifs <;> rfl

/-- `checkGameOver` latches `gameOver` exactly when some player is at 0 or
below (player 0 checked first; `winner` is the other index). -/
theorem Game.checkGameOver_gameOver (g : Game) :
    (g.checkGameOver).gameOver =
      (g.gameOver || decide (g.p0.health ≤ 0) || decide (g.p1.health ≤ 0)) := by
  unfold Game.checkGameOver
  split_ifs
  · simp_all [Game.addLog_gameOver]
  · simp_all [Game.addLog_gameOver]
  · by_cases hG : g.gameOver <;> simp_all

theorem Game.drawCard_player_other (g : Game) (i j : Fin 2) (h : j ≠ i) :
    (g.drawCard i).player j = g.player j := by
  unfold Game.drawCard
  dsimp only
  cases hd : (g.player i).deck with
  | nil => rfl
  | cons card rest =>
    split_ifs
    · rw [Game.addLog_player, Game.player_setPlayer, if_neg h]
    · rfl

/-- Full effect of `drawCard` on the drawing player: move the top deck
card to the hand when the deck is non-empty and the hand is below 10,
otherwise nothing. -/
theorem Game.drawCard_player_self (g : Game) (i : Fin 2) :
    (g.drawCard i).player i =
      (if (g.player i).deck = [] ∨ ¬((g.player i).hand.length < 10) then g.player i
       else { g.player i with hand := (g.player i).hand ++ (g.player i).deck.take 1,
                              deck := (g.player i).deck.drop 1 }) := by
  unfold Game.drawCard
  dsimp only
  cases hd : (g.player i).deck with
  | nil => simp
  | cons card rest =>
    dsimp only
    by_cases h1 : (g.player i).hand.length < 10
    · rw [if_pos h1, Game.addLog_player, Game.player_setPlayer,
          if_pos rfl, if_neg (by simp [h1])]
      simp
    · rw [if_neg h1, if_pos (by simp [h1])]

theorem Game.drawCard_currentTurn (g : Game) (i : Fin 2) :
    (g.drawCard i).currentTurn = g.currentTurn := by
  unfold Game.drawCard
  dsimp only
  cases hd : (g.player i).deck with
  | nil => rfl
  | cons card rest =>
    dsimp only
    split_ifs <;> simp [Game.addLog_currentTurn, Game.setPlayer_currentTurn]

theorem Game.drawCard_turnNumber (g : Game) (i : Fin 2) :
    (g.drawCard i).turnNumber = g.turnNumber := by
  unfold Game.drawCard
  dsimp only
  cases hd : (g.player i).deck with
  | nil => rfl
  | cons card rest =>
    dsimp only
    split_ifs <;> simp [Game.addLog_turnNumber, Game.setPlayer_turnNumber]

theorem Game.drawCard_totalTurns (g : Game) (i : Fin 2) :
    (g.drawCard i).totalTurns = g.totalTurns := by
  unfold Game.drawCard
  dsimp only
  cases hd : (g.player i).deck with
  | nil => rfl
  | cons card rest =>
    dsimp only
    split_ifs <;> simp [Game.addLog_totalTurns, Game.setPlayer_totalTurns]

theorem Game.drawCard_gameOver (g : Game) (i : Fin 2) :
    (g.drawCard i).gameOver = g.gameOver := by
  unfold Game.drawCard
  dsimp only
  cases hd : (g.player i).deck with
  | nil => rfl
  | cons card rest =>
    dsimp only
    split_ifs <;> simp [Game.addLog_gameOver, Game.setPlayer_gameOver]

theorem Game.drawCard_mana (g : Game) (i j : Fin 2) :
    ((g.drawCard i).player j).mana = (g.player j).mana := by
  by_cases h : j = i
  · subst h
    rw [Game.drawCard_player_self]
    split_ifs <;> rfl
  · rw [Game.drawCard_player_other g i j h]

theorem Game.drawLoop_mana (g : Game) (i : Fin 2) (n : Nat) (j : Fin 2) :
    ((g.drawLoop i n).player j).mana = (g.player j).mana := by
  induction n generalizing g with
  | zero => rfl
  | succ n ih => rw [Game.drawLoop, ih, Game.drawCard_mana]

theorem Game.setField_player (g : Game) (i : Fin 2) (f : List Card) (j : Fin 2) :
    (g.setField i f).player j =
      if j = i then { g.player i with field := f } else g.player j := by
  unfold Game.setField
  rw [Game.player_setPlayer]

theorem Game.updateSpellPower_player (g : Game) (j : Fin 2) :
    (g.updateSpellPower).player j =
      { g.player j with
        spellPower := (((g.player j).field.filter fun c => c.ability == "Spell Power +1").length : Int) } := by
  unfold Game.updateSpellPower Game.player
  fin_cases j <;> simp

/-! ### Concrete match states used by scenario claims and witnesses -/

/-- A player-side with the constructor's starting resources and empty
zones. -/
def freshPlayer : Player :=
  { health := 30, maxHealth := 30, mana := 1, maxMana := 1, hand := [], deck := [],
    field := [], graveyard := [], spellsCount := 0, spellPower := 0 }

def forestWolf : Card := Card.fromTemplate "Forest Wolf" 2 "creature" 3 2 "Rush" "common"

def shieldBearer : Card := Card.fromTemplate "Shield Bearer" 2 "creature" 1 4 "Taunt" "common"

/-- Player 0 fields the catalog's Forest Wolf (3/2); player 1 fields the
catalog's Shield Bearer (1/4, Taunt). -/
def combatGame : Game :=
  { roomId := "room", p0 := { freshPlayer with field := [forestWolf] },
    p1 := { freshPlayer with mana := 0, maxMana := 0, field := [shieldBearer] },
    currentTurn := 0, turnNumber := 1, totalTurns := 1, gameOver := false,
    winner := none, gameLog := [] }

/-! ### Claim C5 -/

/-- Claim C5: while the defending field holds at least one Taunt creature,
`processAttack` rejects any attack on the defending face (`targetIndex`
-1) or on an in-range defending creature without Taunt: it returns
`false` and leaves every player's health and every field creature's
health unchanged. -/
theorem C5_taunt_protection (g : Game) (i : Fin 2) (a t : Int)
    (hT : 0 < ((g.player (other i)).field.filter fun c => c.ability == "Taunt" || c.taunt).length)
    (ht : t = -1 ∨ (0 ≤ t ∧ t < ((g.player (other i)).field.length : Int) ∧
      ((g.player (other i)).field.getD t.toNat defaultCard).taunt = false ∧
      ((g.player (other i)).field.getD t.toNat defaultCard).ability ≠ "Taunt")) :
    (g.processAttack i a t).1 = false ∧
    (∀ j : Fin 2, ((g.processAttack i a t).2.player j).health = (g.player j).health) ∧
    (∀ j : Fin 2, ((g.processAttack i a t).2.player j).field.map Card.health =
      (g.player j).field.map Card.health) := by
  unfold Game.processAttack
  dsimp only
  rcases ht with rfl | ⟨ht0, ht1, ht2, ht3⟩
  · by_cases h1 : a < 0 ∨ ((g.player i).field.length : Int) ≤ a
    · rw [if_pos h1]
      exact ⟨rfl, fun j => rfl, fun j => rfl⟩
    · rw [if_neg h1]
      by_cases h2 : ((g.player i).field.getD a.toNat defaultCard).canAttack = false
      · rw [if_pos h2]
        exact ⟨rfl, fun j => rfl, fun j => rfl⟩
      · rw [if_neg h2]
        by_cases h3 : (-1 : Int) = -1 ∧
            ((g.player i).field.getD a.toNat defaultCard).canOnlyAttackCreatures = true
        · rw [if_pos h3]
          exact ⟨rfl, fun j => rfl, fun j => rfl⟩
        · rw [if_neg h3, if_pos ⟨hT, rfl⟩]
          exact ⟨rfl, fun j => rfl, fun j => rfl⟩
  · by_cases h1 : a < 0 ∨ ((g.player i).field.length : Int) ≤ a
    · rw [if_pos h1]
      exact ⟨rfl, fun j => rfl, fun j => rfl⟩
    · rw [if_neg h1]
      by_cases h2 : ((g.player i).field.getD a.toNat defaultCard).canAttack = false
      · rw [if_pos h2]
        exact ⟨rfl, fun j => rfl, fun j => rfl⟩
      · rw [if_neg h2]
        have h3 : ¬(t = -1 ∧
            ((g.player i).field.getD a.toNat defaultCard).canOnlyAttackCreatures = true) := by
          rintro ⟨he, -⟩
          omega
        rw [if_neg h3]
        have h4 : ¬(0 < ((g.player (other i)).field.filter
            fun c => c.ability == "Taunt" || c.taunt).length ∧ t = -1) := by
          rintro ⟨-, he⟩
          omega
        rw [if_neg h4, if_pos ⟨hT, ht0, ht1, ht2, ht3⟩]
        exact ⟨rfl, fun j => rfl, fun j => rfl⟩

/-- Witness for C5: Forest Wolf tries to hit the face past Shield Bearer's
Taunt. -/
theorem C5_taunt_protection_witness :
    (combatGame.processAttack 0 0 (-1)).1 = false ∧
    ((combatGame.processAttack 0 0 (-1)).2.player 1).health = (combatGame.player 1).health ∧
    ((combatGame.processAttack 0 0 (-1)).2.player 1).field.map Card.health =
      (combatGame.player 1).field.map Card.health := by
  have h := C5_taunt_protection combatGame 0 0 (-1) (by decide) (Or.inl rfl)
  exact ⟨h.1, h.2.1 1, h.2.2 1⟩

/-! ### Claim C2 -/

/-- Claim C2 (counterexample): in the spec's scenario, Forest Wolf takes
Shield Bearer's 1 attack and ends at 1 health, not at the claimed 2. -/
theorem C2_counterexample :
    (combatGame.processAttack 0 0 0).1 = true ∧
    (combatGame.processAttack 0 0 0).2.p0.field.map Card.health ≠ [2] := by
  decide

/-- Claim C2 (amended): Forest Wolf (3/2) legally attacks Shield Bearer
(1/4, Taunt); Shield Bearer ends at 1 health, Forest Wolf ends at 1
health (4−3 = 1 and 2−1 = 1), and both creatures remain on their
fields. -/
theorem C2_combat_amended :
    (combatGame.processAttack 0 0 0).1 = true ∧
    (combatGame.processAttack 0 0 0).2.p1.field.map (fun c => (c.name, c.health)) =
      [("Shield Bearer", 1)] ∧
    (combatGame.processAttack 0 0 0).2.p0.field.map (fun c => (c.name, c.health)) =
      [("Forest Wolf", 1)] := by
  decide

/-! ### Claim C3 -/

/-- `takeDamage` clamps the damage at the current health
(`min(amount, health)`), so a creature entering combat at non-negative
health can never leave `takeDamage` with negative health — the root cause
of the Trample branch being unreachable. -/
theorem Card.takeDamage_health_nonneg (c : Card) (d : Int) (h : 0 ≤ c.health) :
    0 ≤ (c.takeDamage d).1.health := by
  simp only [Card.takeDamage]
  split_ifs <;> simp_all

def trampleBeast : Card := Card.fromTemplate "Tramplebeast" 5 "creature" 5 5 "Trample" "epic"

/-- An exposed (tapped) 1/2 defender. -/
def peasantTarget : Card :=
  { Card.fromTemplate "Peasant" 1 "creature" 1 2 "" "common" with tapped := true }

def trampleGame : Game :=
  { roomId := "room", p0 := { freshPlayer with field := [trampleBeast] },
    p1 := { freshPlayer with mana := 0, maxMana := 0, field := [peasantTarget] },
    currentTurn := 0, turnNumber := 1, totalTurns := 1, gameOver := false,
    winner := none, gameLog := [] }

/-- Claim C3 (code bug, failing input): a 5-attack Trample creature kills
a 2-health defender, yet the defending player takes no face damage — the
target's health is clamped at 0 by `takeDamage`, so the Trample branch's
`Math.abs(target.health)` excess is always 0 and the claimed carry-through
(3 damage here) never happens. -/
theorem C3_trample_dead_code :
    trampleBeast.ability = "Trample" ∧ trampleBeast.attack = 5 ∧
    peasantTarget.health = 2 ∧ trampleGame.p1.health = 30 ∧
    (trampleGame.processAttack 0 0 0).1 = true ∧
    (trampleGame.processAttack 0 0 0).2.p1.field = [] ∧
    (trampleGame.processAttack 0 0 0).2.p1.health = 30 := by
  decide

/-! ### Shared rejection lemmas -/

/-- `playCard` rejects an out-of-bounds hand index with no state change. -/
theorem Game.playCard_oob (g : Game) (i : Fin 2) (ci : Int) (t : PlayTarget)
    (ac : Option Int) (h : ci < 0 ∨ ((g.player i).hand.length : Int) ≤ ci) :
    g.playCard i ci t ac = (false, g) := by
  unfold Game.playCard
  dsimp only
  rw [if_pos h]

/-- `playCard` rejects an unaffordable effective cost with no state
change. -/
theorem Game.playCard_poor (g : Game) (i : Fin 2) (ci : Int) (t : PlayTarget)
    (ac : Option Int)
    (h1 : ¬(ci < 0 ∨ ((g.player i).hand.length : Int) ≤ ci))
    (h2 : (g.player i).mana <
      g.effCost ((g.player i).hand.getD ci.toNat defaultCard) i ac) :
    g.playCard i ci t ac = (false, g) := by
  unfold Game.playCard
  dsimp only
  rw [if_neg h1, if_pos h2]

/-- `playCard` rejects a creature played onto a full 7-slot field with no
state change. -/
theorem Game.playCard_fullField (g : Game) (i : Fin 2) (ci : Int) (t : PlayTarget)
    (ac : Option Int)
    (h1 : ¬(ci < 0 ∨ ((g.player i).hand.length : Int) ≤ ci))
    (h2 : ¬((g.player i).mana <
      g.effCost ((g.player i).hand.getD ci.toNat defaultCard) i ac))
    (h3 : ((g.player i).hand.getD ci.toNat defaultCard).type = "creature")
    (h4 : 7 ≤ (g.player i).field.length) :
    g.playCard i ci t ac = (false, g) := by
  unfold Game.playCard
  dsimp only
  rw [if_neg h1, if_neg h2, if_pos ⟨h3, h4⟩]

/-- `endTurn` by the non-current player is rejected with no state
change. -/
theorem Game.endTurn_wrongTurn (g : Game) (p : Fin 2) (h : g.currentTurn ≠ p) :
    g.endTurn p = (false, g) := by
  unfold Game.endTurn
  rw [if_pos h]

/-- `processAttack` rejects an out-of-bounds attacker index with no state
change (and no log entry). -/
theorem Game.processAttack_oob (g : Game) (i : Fin 2) (a t : Int)
    (h : a < 0 ∨ ((g.player i).field.length : Int) ≤ a) :
    g.processAttack i a t = (false, g) := by
  unfold Game.processAttack
  dsimp only
  rw [if_pos h]

/-- With a Taunt creature on the defending field, a face attack or an
attack on an in-range non-Taunt defender is rejected, appending exactly
the taunt rejection message. -/
theorem Game.processAttack_tauntReject (g : Game) (i : Fin 2) (a t : Int)
    (h1 : ¬(a < 0 ∨ ((g.player i).field.length : Int) ≤ a))
    (hcan : ((g.player i).field.getD a.toNat defaultCard).canAttack = true)
    (hrush : t = -1 → ((g.player i).field.getD a.toNat defaultCard).canOnlyAttackCreatures = false)
    (hT : 0 < ((g.player (other i)).field.filter fun c => c.ability == "Taunt" || c.taunt).length)
    (ht : t = -1 ∨ (0 ≤ t ∧ t < ((g.player (other i)).field.length : Int) ∧
      ((g.player (other i)).field.getD t.toNat defaultCard).taunt = false ∧
      ((g.player (other i)).field.getD t.toNat defaultCard).ability ≠ "Taunt")) :
    g.processAttack i a t = (false, g.addLog "Must attack Taunt creatures first!") := by
  unfold Game.processAttack
  dsimp only
  rw [if_neg h1, if_neg (by rw [hcan]; simp)]
  rcases ht with rfl | ⟨ht0, ht1, ht2, ht3⟩
  · rw [if_neg (by rw [hrush rfl]; simp), if_pos ⟨hT, rfl⟩]
  · have h3 : ¬(t = -1 ∧
        ((g.player i).field.getD a.toNat defaultCard).canOnlyAttackCreatures = true) := by
      rintro ⟨he, -⟩
      omega
    have h4 : ¬(0 < ((g.player (other i)).field.filter
        fun c => c.ability == "Taunt" || c.taunt).length ∧ t = -1) := by
      rintro ⟨-, he⟩
      omega
    rw [if_neg h3, if_neg h4, if_pos ⟨hT, ht0, ht1, ht2, ht3⟩]

/-- An in-bounds attacker that cannot attack (tapped, frozen, or already
attacked) is rejected, appending exactly the cannot-attack message. -/
theorem Game.processAttack_cannotAttack (g : Game) (i : Fin 2) (a t : Int)
    (h1 : ¬(a < 0 ∨ ((g.player i).field.length : Int) ≤ a))
    (hB : ((g.player i).field.getD a.toNat defaultCard).canAttack = false) :
    g.processAttack i a t =
      (false, g.addLog (((g.player i).field.getD a.toNat defaultCard).name ++
        " cannot attack right now!")) := by
  unfold Game.processAttack
  dsimp only
  rw [if_neg h1, if_pos hB]

/-- A Rush-restricted attacker aiming at the face is rejected, appending
exactly the rush-restriction message. -/
theorem Game.processAttack_rushReject (g : Game) (i : Fin 2) (a : Int)
    (h1 : ¬(a < 0 ∨ ((g.player i).field.length : Int) ≤ a))
    (hcan : ((g.player i).field.getD a.toNat defaultCard).canAttack = true)
    (hrush : ((g.player i).field.getD a.toNat defaultCard).canOnlyAttackCreatures = true) :
    g.processAttack i a (-1) =
      (false, g.addLog (((g.player i).field.getD a.toNat defaultCard).name ++
        " with Rush can only attack creatures this turn!")) := by
  unfold Game.processAttack
  dsimp only
  rw [if_neg h1, if_neg (by rw [hcan]; simp), if_pos ⟨rfl, hrush⟩]

/-- With no Taunt creature defending, an untapped non-Taunt defender
cannot be targeted ("defenders must be exposed"); the rejection appends
exactly the exposure message. -/
theorem Game.processAttack_exposureReject (g : Game) (i : Fin 2) (a t : Int)
    (h1 : ¬(a < 0 ∨ ((g.player i).field.length : Int) ≤ a))
    (hcan : ((g.player i).field.getD a.toNat defaultCard).canAttack = true)
    (hT0 : ((g.player (other i)).field.filter fun c => c.ability == "Taunt" || c.taunt).length = 0)
    (ht0 : 0 ≤ t) (ht1 : t < ((g.player (other i)).field.length : Int))
    (htap : ((g.player (other i)).field.getD t.toNat defaultCard).tapped = false)
    (htaunt : ((g.player (other i)).field.getD t.toNat defaultCard).taunt = false)
    (hab : ((g.player (other i)).field.getD t.toNat defaultCard).ability ≠ "Taunt") :
    g.processAttack i a t = (false, g.addLog "Cannot attack defending creatures!") := by
  unfold Game.processAttack
  dsimp only
  rw [if_neg h1, if_neg (by rw [hcan]; simp),
    if_neg (by rintro ⟨he, -⟩; omega),
    if_neg (by rintro ⟨hd, -⟩; omega),
    if_neg (by rintro ⟨hd, -⟩; omega),
    if_pos ⟨ht0, ht1, htap, htaunt, hab⟩]

/-- A stealthed defender (once the taunt and exposure gates pass) is
rejected, appending exactly the stealth message. -/
theorem Game.processAttack_stealthReject (g : Game) (i : Fin 2) (a t : Int)
    (h1 : ¬(a < 0 ∨ ((g.player i).field.length : Int) ≤ a))
    (hcan : ((g.player i).field.getD a.toNat defaultCard).canAttack = true)
    (ht0 : 0 ≤ t) (ht1 : t < ((g.player (other i)).field.length : Int))
    (hpassTaunt :
      ((g.player (other i)).field.filter fun c => c.ability == "Taunt" || c.taunt).length = 0 ∨
      ((g.player (other i)).field.getD t.toNat defaultCard).taunt = true ∨
      ((g.player (other i)).field.getD t.toNat defaultCard).ability = "Taunt")
    (hpassExp :
      ((g.player (other i)).field.getD t.toNat defaultCard).tapped = true ∨
      ((g.player (other i)).field.getD t.toNat defaultCard).taunt = true ∨
      ((g.player (other i)).field.getD t.toNat defaultCard).ability = "Taunt")
    (hst : ((g.player (other i)).field.getD t.toNat defaultCard).stealth = true) :
    g.processAttack i a t = (false, g.addLog "Cannot attack stealthed creatures!") := by
  unfold Game.processAttack
  dsimp only
  rw [if_neg h1, if_neg (by rw [hcan]; simp),
    if_neg (by rintro ⟨he, -⟩; omega),
    if_neg (by rintro ⟨-, he⟩; omega),
    if_neg (by
      rintro ⟨hd, -, -, h4, h5⟩
      rcases hpassTaunt with h | h | h
      · omega
      · simp_all
      · exact h5 h),
    if_neg (by
      rintro ⟨-, -, f3, f4, f5⟩
      rcases hpassExp with h | h | h
      · simp_all
      · simp_all
      · exact f5 h),
    if_pos ⟨ht0, ht1, hst⟩]

/-- A Flying defender out of reach of a non-Flying, non-Reach attacker
(once the earlier gates pass) is rejected, appending exactly the flying
message. -/
theorem Game.processAttack_flyingReject (g : Game) (i : Fin 2) (a t : Int)
    (h1 : ¬(a < 0 ∨ ((g.player i).field.length : Int) ≤ a))
    (hcan : ((g.player i).field.getD a.toNat defaultCard).canAttack = true)
    (ht0 : 0 ≤ t) (ht1 : t < ((g.player (other i)).field.length : Int))
    (hpassTaunt :
      ((g.player (other i)).field.filter fun c => c.ability == "Taunt" || c.taunt).length = 0 ∨
      ((g.player (other i)).field.getD t.toNat defaultCard).taunt = true ∨
      ((g.player (other i)).field.getD t.toNat defaultCard).ability = "Taunt")
    (hpassExp :
      ((g.player (other i)).field.getD t.toNat defaultCard).tapped = true ∨
      ((g.player (other i)).field.getD t.toNat defaultCard).taunt = true ∨
      ((g.player (other i)).field.getD t.toNat defaultCard).ability = "Taunt")
    (hnost : ((g.player (other i)).field.getD t.toNat defaultCard).stealth = false)
    (hfly : ((g.player (other i)).field.getD t.toNat defaultCard).ability = "Flying")
    (haf : ((g.player i).field.getD a.toNat defaultCard).ability ≠ "Flying")
    (har : ((g.player i).field.getD a.toNat defaultCard).ability ≠ "Reach") :
    g.processAttack i a t =
      (false, g.addLog "Cannot reach flying creatures without Flying or Reach!") := by
  unfold Game.processAttack
  dsimp only
  rw [if_neg h1, if_neg (by rw [hcan]; simp),
    if_neg (by rintro ⟨he, -⟩; omega),
    if_neg (by rintro ⟨-, he⟩; omega),
    if_neg (by
      rintro ⟨hd, -, -, h4, h5⟩
      rcases hpassTaunt with h | h | h
      · omega
      · simp_all
      · exact h5 h),
    if_neg (by
      rintro ⟨-, -, f3, f4, f5⟩
      rcases hpassExp with h | h | h
      · simp_all
      · simp_all
      · exact f5 h),
    if_neg (by rintro ⟨-, -, hg⟩; simp_all),
    if_pos ⟨ht0, ht1, hfly, haf, har⟩]

/-! ### Claim C1 -/

/-- Claim C1 (counterexample): playing an out-of-bounds hand index is a
rule violation that returns `false` and leaves the state untouched — but
no entry is appended to the match log (the rejection is logged to the
console only), so the claim's "appends an entry describing the rejection"
fails here. -/
theorem C1_counterexample :
    (combatGame.playCard 0 5 .null none).1 = false ∧
    (combatGame.playCard 0 5 .null none).2 = combatGame ∧
    combatGame.gameLog = [] := by
  decide

/-- Claim C1 (amended): every listed rule violation returns `false` and
leaves the state unchanged apart from logging (the embedding is total, so
no exception can cross the boundary); the attack-legality rejections
append a log entry, but the `playCard` rejections (bad index, insufficient
mana, full field), a wrong-turn `endTurn` and an out-of-bounds attacker
index append nothing to the match log. -/
theorem C1_rejections_amended :
    (∀ (g : Game) (i : Fin 2) (ci : Int) (t : PlayTarget) (ac : Option Int),
      (ci < 0 ∨ ((g.player i).hand.length : Int) ≤ ci) →
      g.playCard i ci t ac = (false, g)) ∧
    (∀ (g : Game) (i : Fin 2) (ci : Int) (t : PlayTarget) (ac : Option Int),
      ¬(ci < 0 ∨ ((g.player i).hand.length : Int) ≤ ci) →
      (g.player i).mana <
        g.effCost ((g.player i).hand.getD ci.toNat defaultCard) i ac →
      g.playCard i ci t ac = (false, g)) ∧
    (∀ (g : Game) (i : Fin 2) (ci : Int) (t : PlayTarget) (ac : Option Int),
      ¬(ci < 0 ∨ ((g.player i).hand.length : Int) ≤ ci) →
      ¬((g.player i).mana <
        g.effCost ((g.player i).hand.getD ci.toNat defaultCard) i ac) →
      ((g.player i).hand.getD ci.toNat defaultCard).type = "creature" →
      7 ≤ (g.player i).field.length →
      g.playCard i ci t ac = (false, g)) ∧
    (∀ (g : Game) (p : Fin 2), g.currentTurn ≠ p → g.endTurn p = (false, g)) ∧
    (∀ (g : Game) (i : Fin 2) (a t : Int),
      (a < 0 ∨ ((g.player i).field.length : Int) ≤ a) →
      g.processAttack i a t = (false, g)) ∧
    (∀ (g : Game) (i : Fin 2) (a t : Int),
      ¬(a < 0 ∨ ((g.player i).field.length : Int) ≤ a) →
      ((g.player i).field.getD a.toNat defaultCard).canAttack = false →
      g.processAttack i a t =
        (false, g.addLog (((g.player i).field.getD a.toNat defaultCard).name ++
          " cannot attack right now!"))) ∧
    (∀ (g : Game) (i : Fin 2) (a : Int),
      ¬(a < 0 ∨ ((g.player i).field.length : Int) ≤ a) →
      ((g.player i).field.getD a.toNat defaultCard).canAttack = true →
      ((g.player i).field.getD a.toNat defaultCard).canOnlyAttackCreatures = true →
      g.processAttack i a (-1) =
        (false, g.addLog (((g.player i).field.getD a.toNat defaultCard).name ++
          " with Rush can only attack creatures this turn!"))) ∧
    (∀ (g : Game) (i : Fin 2) (a t : Int),
      ¬(a < 0 ∨ ((g.player i).field.length : Int) ≤ a) →
      ((g.player i).field.getD a.toNat defaultCard).canAttack = true →
      (t = -1 → ((g.player i).field.getD a.toNat defaultCard).canOnlyAttackCreatures = false) →
      0 < ((g.player (other i)).field.filter fun c => c.ability == "Taunt" || c.taunt).length →
      (t = -1 ∨ (0 ≤ t ∧ t < ((g.player (other i)).field.length : Int) ∧
        ((g.player (other i)).field.getD t.toNat defaultCard).taunt = false ∧
        ((g.player (other i)).field.getD t.toNat defaultCard).ability ≠ "Taunt")) →
      g.processAttack i a t = (false, g.addLog "Must attack Taunt creatures first!")) ∧
    (∀ (g : Game) (i : Fin 2) (a t : Int),
      ¬(a < 0 ∨ ((g.player i).field.length : Int) ≤ a) →
      ((g.player i).field.getD a.toNat defaultCard).canAttack = true →
      ((g.player (other i)).field.filter fun c => c.ability == "Taunt" || c.taunt).length = 0 →
      0 ≤ t → t < ((g.player (other i)).field.length : Int) →
      ((g.player (other i)).field.getD t.toNat defaultCard).tapped = false →
      ((g.player (other i)).field.getD t.toNat defaultCard).taunt = false →
      ((g.player (other i)).field.getD t.toNat defaultCard).ability ≠ "Taunt" →
      g.processAttack i a t = (false, g.addLog "Cannot attack defending creatures!")) ∧
    (∀ (g : Game) (i : Fin 2) (a t : Int),
      ¬(a < 0 ∨ ((g.player i).field.length : Int) ≤ a) →
      ((g.player i).field.getD a.toNat defaultCard).canAttack = true →
      0 ≤ t → t < ((g.player (other i)).field.length : Int) →
      (((g.player (other i)).field.filter fun c => c.ability == "Taunt" || c.taunt).length = 0 ∨
        ((g.player (other i)).field.getD t.toNat defaultCard).taunt = true ∨
        ((g.player (other i)).field.getD t.toNat defaultCard).ability = "Taunt") →
      (((g.player (other i)).field.getD t.toNat defaultCard).tapped = true ∨
        ((g.player (other i)).field.getD t.toNat defaultCard).taunt = true ∨
        ((g.player (other i)).field.getD t.toNat defaultCard).ability = "Taunt") →
      ((g.player (other i)).field.getD t.toNat defaultCard).stealth = true →
      g.processAttack i a t = (false, g.addLog "Cannot attack stealthed creatures!")) ∧
    (∀ (g : Game) (i : Fin 2) (a t : Int),
      ¬(a < 0 ∨ ((g.player i).field.length : Int) ≤ a) →
      ((g.player i).field.getD a.toNat defaultCard).canAttack = true →
      0 ≤ t → t < ((g.player (other i)).field.length : Int) →
      (((g.player (other i)).field.filter fun c => c.ability == "Taunt" || c.taunt).length = 0 ∨
        ((g.player (other i)).field.getD t.toNat defaultCard).taunt = true ∨
        ((g.player (other i)).field.getD t.toNat defaultCard).ability = "Taunt") →
      (((g.player (other i)).field.getD t.toNat defaultCard).tapped = true ∨
        ((g.player (other i)).field.getD t.toNat defaultCard).taunt = true ∨
        ((g.player (other i)).field.getD t.toNat defaultCard).ability = "Taunt") →
      ((g.player (other i)).field.getD t.toNat defaultCard).stealth = false →
      ((g.player (other i)).field.getD t.toNat defaultCard).ability = "Flying" →
      ((g.player i).field.getD a.toNat defaultCard).ability ≠ "Flying" →
      ((g.player i).field.getD a.toNat defaultCard).ability ≠ "Reach" →
      g.processAttack i a t =
        (false, g.addLog "Cannot reach flying creatures without Flying or Reach!")) :=
  ⟨Game.playCard_oob, Game.playCard_poor, Game.playCard_fullField,
   Game.endTurn_wrongTurn, Game.processAttack_oob, Game.processAttack_cannotAttack,
   Game.processAttack_rushReject, Game.processAttack_tauntReject,
   Game.processAttack_exposureReject, Game.processAttack_stealthReject,
   Game.processAttack_flyingReject⟩

def meteorSpell : Card := Card.fromTemplate "Meteor" 5 "spell" 0 0 "Deal 6 damage" "epic"

/-- Hand holds a 5-cost spell but only 1 mana is available. -/
def manaShortGame : Game :=
  { combatGame with p0 := { freshPlayer with hand := [meteorSpell] } }

def peasantCreature : Card := Card.fromTemplate "Peasant" 1 "creature" 1 1 "" "common"

/-- An affordable creature in hand with all 7 field slots already taken. -/
def fullFieldGame : Game :=
  { combatGame with
    p0 := { freshPlayer with hand := [peasantCreature],
                             field := List.replicate 7 peasantTarget } }

/-- A tapped Forest Wolf that cannot attack. -/
def cannotAttackGame : Game :=
  { combatGame with p0 := { freshPlayer with field := [{ forestWolf with tapped := true }] } }

/-- A Rush-restricted (creatures-only) Forest Wolf. -/
def rushGame : Game :=
  { combatGame with
    p0 := { freshPlayer with field := [{ forestWolf with canOnlyAttackCreatures := true }] } }

/-- Forest Wolf facing an untapped non-Taunt Peasant (no Taunts on the
defending field). -/
def exposureGame : Game :=
  { combatGame with
    p1 := { freshPlayer with
              mana := 0, maxMana := 0, field := [peasantCreature] } }

/-- Forest Wolf facing a tapped stealthed Peasant. -/
def stealthGame : Game :=
  { combatGame with
    p1 := { freshPlayer with
              mana := 0, maxMana := 0,
              field := [{ peasantTarget with stealth := true }] } }

/-- Forest Wolf (no Flying/Reach) facing a tapped Fire Drake (Flying). -/
def flyingGame : Game :=
  { combatGame with
    p1 := { freshPlayer with
              mana := 0, maxMana := 0,
              field := [{ Card.fromTemplate "Fire Drake" 5 "creature" 5 4 "Flying" "epic" with
                            tapped := true }] } }

/-- Witness for C1: each rejection case of the amended theorem evaluated
on a concrete match state. -/
theorem C1_rejections_amended_witness :
    combatGame.playCard 0 5 .null none = (false, combatGame) ∧
    manaShortGame.playCard 0 0 .null none = (false, manaShortGame) ∧
    fullFieldGame.playCard 0 0 .null none = (false, fullFieldGame) ∧
    combatGame.endTurn 1 = (false, combatGame) ∧
    combatGame.processAttack 0 5 (-1) = (false, combatGame) ∧
    cannotAttackGame.processAttack 0 0 (-1) =
      (false, cannotAttackGame.addLog "Forest Wolf cannot attack right now!") ∧
    rushGame.processAttack 0 0 (-1) =
      (false, rushGame.addLog "Forest Wolf with Rush can only attack creatures this turn!") ∧
    combatGame.processAttack 0 0 (-1) =
      (false, combatGame.addLog "Must attack Taunt creatures first!") ∧
    exposureGame.processAttack 0 0 0 =
      (false, exposureGame.addLog "Cannot attack defending creatures!") ∧
    stealthGame.processAttack 0 0 0 =
      (false, stealthGame.addLog "Cannot attack stealthed creatures!") ∧
    flyingGame.processAttack 0 0 0 =
      (false, flyingGame.addLog "Cannot reach flying creatures without Flying or Reach!") := by
  refine ⟨?_, ?_, ?_, ?_, ?_, ?_, ?_, ?_, ?_, ?_, ?_⟩
  · exact C1_rejections_amended.1 combatGame 0 5 .null none (by decide)
  · exact C1_rejections_amended.2.1 manaShortGame 0 0 .null none (by decide) (by decide)
  · exact C1_rejections_amended.2.2.1 fullFieldGame 0 0 .null none
      (by decide) (by decide) (by decide) (by decide)
  · exact C1_rejections_amended.2.2.2.1 combatGame 1 (by decide)
  · exact C1_rejections_amended.2.2.2.2.1 combatGame 0 5 (-1) (by decide)
  · rw [C1_rejections_amended.2.2.2.2.2.1 cannotAttackGame 0 0 (-1) (by decide) (by decide)]
    decide
  · rw [C1_rejections_amended.2.2.2.2.2.2.1 rushGame 0 0 (by decide) (by decide) (by decide)]
    decide
  · exact C1_rejections_amended.2.2.2.2.2.2.2.1 combatGame 0 0 (-1)
      (by decide) (by decide) (by decide) (by decide) (Or.inl rfl)
  · exact C1_rejections_amended.2.2.2.2.2.2.2.2.1 exposureGame 0 0 0
      (by decide) (by decide) (by decide) (by decide) (by decide) (by decide) (by decide)
      (by decide)
  · exact C1_rejections_amended.2.2.2.2.2.2.2.2.2.1 stealthGame 0 0 0
      (by decide) (by decide) (by decide) (by decide) (Or.inl (by decide))
      (Or.inl (by decide)) (by decide)
  · exact C1_rejections_amended.2.2.2.2.2.2.2.2.2.2 flyingGame 0 0 0
      (by decide) (by decide) (by decide) (by decide) (Or.inl (by decide))
      (Or.inl (by decide)) (by decide) (by decide) (by decide) (by decide)

/-! ### Mana preservation: nothing after the `playCard` deduction touches
mana -/

theorem Game.setPlayer_mana (g : Game) (i : Fin 2) (p : Player) (j : Fin 2)
    (h : p.mana = (g.player i).mana) :
    ((g.setPlayer i p).player j).mana = (g.player j).mana := by
  rw [Game.player_setPlayer]
  by_cases hj : j = i
  · rw [if_pos hj, hj, h]
  · rw [if_neg hj]

theorem Game.setField_mana (g : Game) (i : Fin 2) (f : List Card) (j : Fin 2) :
    ((g.setField i f).player j).mana = (g.player j).mana :=
  Game.setPlayer_mana g i _ j rfl

theorem Game.addLog_mana (g : Game) (m : String) (j : Fin 2) :
    ((g.addLog m).player j).mana = (g.player j).mana := rfl

theorem Game.checkGameOver_mana (g : Game) (j : Fin 2) :
    ((g.checkGameOver).player j).mana = (g.player j).mana := by
  rw [Game.checkGameOver_player]

theorem Game.updateSpellPower_mana (g : Game) (j : Fin 2) :
    ((g.updateSpellPower).player j).mana = (g.player j).mana := by
  rw [Game.updateSpellPower_player]

theorem deathSweepAux_mana (i : Fin 2) (l : List Card) (g : Game) (acc : List Card)
    (j : Fin 2) :
    ((deathSweepAux i l g acc).player j).mana = (g.player j).mana := by
  induction l generalizing g acc with
  | nil => exact Game.setField_mana g i _ j
  | cons c rest ih =>
    simp only [deathSweepAux]
    split_ifs with hd hdr hres hh
    all_goals rw [ih]
    all_goals simp [Game.setPlayer_mana, Game.addLog_mana, Game.drawCard_mana]

theorem Game.checkCreatureDeaths_mana (g : Game) (j : Fin 2) :
    ((g.checkCreatureDeaths).player j).mana = (g.player j).mana := by
  unfold Game.checkCreatureDeaths
  rw [Game.updateSpellPower_mana, deathSweepAux_mana, deathSweepAux_mana]

theorem aoeSweepAux_mana (i : Fin 2) (l : List Card) (g : Game) (acc : List Card)
    (j : Fin 2) :
    ((aoeSweepAux i l g acc).player j).mana = (g.player j).mana := by
  induction l generalizing g acc with
  | nil => exact Game.setField_mana g i _ j
  | cons c rest ih =>
    simp only [aoeSweepAux]
    split_ifs with hd
    all_goals rw [ih]
    all_goals simp [Game.addLog_mana]

theorem Game.handleEnterPlayAbilities_mana (g : Game) (i : Fin 2) (card : Card)
    (j : Fin 2) :
    ((g.handleEnterPlayAbilities i card).player j).mana = (g.player j).mana := by
  unfold Game.handleEnterPlayAbilities
  dsimp only
  split_ifs
  · exact Game.drawLoop_mana _ _ _ _
  · rw [Game.checkGameOver_mana, Game.addLog_mana, Game.setPlayer_mana _ _ _ _ (by rfl)]
  · rw [Game.checkCreatureDeaths_mana, aoeSweepAux_mana]
  · rw [Game.addLog_mana, Game.setPlayer_mana _ _ _ _ (by rfl), Game.setPlayer_mana _ _ _ _ (by rfl)]
  · rw [Game.addLog_mana, Game.setPlayer_mana _ _ _ _ (by rfl)]
  · rw [Game.addLog_mana]
  · exact Game.updateSpellPower_mana _ _
  · rfl

theorem Game.playCreature_mana (g : Game) (i : Fin 2) (card : Card) (j : Fin 2) :
    ((g.playCreature i card).player j).mana = (g.player j).mana := by
  unfold Game.playCreature
  dsimp only
  rw [Game.updateSpellPower_mana, Game.handleEnterPlayAbilities_mana,
    Game.setPlayer_mana _ _ _ _ (by rfl)]

theorem Game.spellHitCreature_mana (g : Game) (i : Fin 2) (card : Card) (n : Nat)
    (damage : Int) (j : Fin 2) :
    ((g.spellHitCreature i card n damage).player j).mana = (g.player j).mana := by
  unfold Game.spellHitCreature
  dsimp only
  rw [Game.checkCreatureDeaths_mana]
  split_ifs
  · rw [Game.addLog_mana, Game.setField_mana, Game.addLog_mana, Game.setField_mana]
  · rw [Game.addLog_mana, Game.setField_mana]

theorem Game.handleSpell_mana (g : Game) (i : Fin 2) (card : Card) (target : PlayTarget)
    (j : Fin 2) :
    ((g.handleSpell i card target).player j).mana = (g.player j).mana := by
  unfold Game.handleSpell
  dsimp only
  by_cases hDeal : jsIncludes card.ability "Deal" = true
  · rw [if_pos hDeal]
    by_cases hFace : (target = PlayTarget.str "opponent" ∨ target = PlayTarget.undef ∨
        target = PlayTarget.num (-1))
    · rw [if_pos hFace, Game.checkGameOver_mana, Game.addLog_mana,
        Game.setPlayer_mana _ _ _ _ (by rfl)]
    · rw [if_neg hFace]
      cases target with
      | num n =>
        dsimp only
        split_ifs
        · exact Game.spellHitCreature_mana _ _ _ _ _ _
        · rfl
      | undef => rfl
      | null => rfl
      | str sx => rfl
  · rw [if_neg hDeal]
    by_cases hRes : jsIncludes card.ability "Restore" = true
    · rw [if_pos hRes, Game.addLog_mana, Game.setPlayer_mana _ _ _ _ (by rfl)]
    · rw [if_neg hRes]
      by_cases hBuff : card.ability = "All allies +1/+1" ∨ card.ability = "All allies +2/+2"
      · rw [if_pos hBuff]
        rw [Game.addLog_mana, Game.setField_mana]
      · rw [if_neg hBuff]
        by_cases hDraw : jsIncludes card.ability "Draw" = true
        · rw [if_pos hDraw]
          exact Game.drawLoop_mana _ _ _ _
        · rw [if_neg hDraw]

/-- `playCard` returns `true` exactly when all three rejection checks
pass. -/
theorem Game.playCard_true_iff (g : Game) (i : Fin 2) (ci : Int) (t : PlayTarget)
    (ac : Option Int) :
    (g.playCard i ci t ac).1 = true ↔
      (¬(ci < 0 ∨ ((g.player i).hand.length : Int) ≤ ci) ∧
       ¬((g.player i).mana <
          g.effCost ((g.player i).hand.getD ci.toNat defaultCard) i ac) ∧
       ¬(((g.player i).hand.getD ci.toNat defaultCard).type = "creature" ∧
          7 ≤ (g.player i).field.length)) := by
  constructor
  · intro htrue
    by_cases h1 : ci < 0 ∨ ((g.player i).hand.length : Int) ≤ ci
    · rw [Game.playCard_oob g i ci t ac h1] at htrue
      exact absurd htrue (by simp)
    by_cases h2 : (g.player i).mana <
        g.effCost ((g.player i).hand.getD ci.toNat defaultCard) i ac
    · rw [Game.playCard_poor g i ci t ac h1 h2] at htrue
      exact absurd htrue (by simp)
    by_cases h3 : ((g.player i).hand.getD ci.toNat defaultCard).type = "creature" ∧
        7 ≤ (g.player i).field.length
    · rw [Game.playCard_fullField g i ci t ac h1 h2 h3.1 h3.2] at htrue
      exact absurd htrue (by simp)
    exact ⟨h1, h2, h3⟩
  · rintro ⟨h1, h2, h3⟩
    unfold Game.playCard
    dsimp only
    rw [if_neg h1, if_neg h2, if_neg h3]

/-- On acceptance, `playCard` deducts exactly the effective cost
(`actualCost` when supplied, otherwise `getCardCost`) from the acting
player's mana; nothing later in the play pipeline touches mana. -/
theorem Game.playCard_accept_mana (g : Game) (i : Fin 2) (ci : Int) (t : PlayTarget)
    (ac : Option Int)
    (h1 : ¬(ci < 0 ∨ ((g.player i).hand.length : Int) ≤ ci))
    (h2 : ¬((g.player i).mana <
      g.effCost ((g.player i).hand.getD ci.toNat defaultCard) i ac))
    (h3 : ¬(((g.player i).hand.getD ci.toNat defaultCard).type = "creature" ∧
      7 ≤ (g.player i).field.length)) :
    ((g.playCard i ci t ac).2.player i).mana =
      (g.player i).mana -
        g.effCost ((g.player i).hand.getD ci.toNat defaultCard) i ac := by
  unfold Game.playCard
  dsimp only
  rw [if_neg h1, if_neg h2, if_neg h3, Game.addLog_mana]
  split_ifs
  · rw [Game.playCreature_mana, Game.player_setPlayer]
    simp
  · rw [Game.setPlayer_mana _ _ _ _ (by rfl), Game.handleSpell_mana,
      Game.setPlayer_mana _ _ _ _ (by rfl), Game.player_setPlayer]
    simp
  · rw [Game.player_setPlayer]
    simp

/-! ### Claim C4 -/

/-- A 5-cost "Deal 6 damage" spell in hand with 3 mana available. -/
def overrideGame : Game :=
  { combatGame with p0 := { freshPlayer with hand := [meteorSpell], mana := 3 } }

/-- Claim C4 (counterexample): `playCard` called with `actualCost = 0`
accepts the 5-cost Meteor and deducts 0 mana, so the mana deducted does
NOT equal the effective cost computed from the card itself (5). -/
theorem C4_counterexample :
    (overrideGame.playCard 0 0 .undef (some 0)).1 = true ∧
    (overrideGame.playCard 0 0 .undef (some 0)).2.p0.mana = 3 ∧
    overrideGame.p0.mana = 3 ∧
    overrideGame.getCardCost meteorSpell 0 = 5 := by
  decide

/-- Claim C4 (amended): an accepted `playCard` deducts exactly the
effective cost — the card-derived `getCardCost` when no `actualCost`
override is supplied, and the caller's override otherwise; every rejected
call (bad index, unaffordable cost, creature onto a full 7-slot field)
returns `false` and mutates nothing. -/
theorem C4_effective_cost_amended :
    (∀ (g : Game) (i : Fin 2) (ci : Int) (t : PlayTarget),
      (g.playCard i ci t none).1 = true →
      ((g.playCard i ci t none).2.player i).mana =
        (g.player i).mana - g.getCardCost ((g.player i).hand.getD ci.toNat defaultCard) i) ∧
    (∀ (g : Game) (i : Fin 2) (ci : Int) (t : PlayTarget) (c : Int),
      (g.playCard i ci t (some c)).1 = true →
      ((g.playCard i ci t (some c)).2.player i).mana = (g.player i).mana - c) ∧
    (∀ (g : Game) (i : Fin 2) (ci : Int) (t : PlayTarget) (ac : Option Int),
      (ci < 0 ∨ ((g.player i).hand.length : Int) ≤ ci) →
      g.playCard i ci t ac = (false, g)) ∧
    (∀ (g : Game) (i : Fin 2) (ci : Int) (t : PlayTarget) (ac : Option Int),
      ¬(ci < 0 ∨ ((g.player i).hand.length : Int) ≤ ci) →
      (g.player i).mana < g.effCost ((g.player i).hand.getD ci.toNat defaultCard) i ac →
      g.playCard i ci t ac = (false, g)) ∧
    (∀ (g : Game) (i : Fin 2) (ci : Int) (t : PlayTarget) (ac : Option Int),
      ¬(ci < 0 ∨ ((g.player i).hand.length : Int) ≤ ci) →
      ¬((g.player i).mana < g.effCost ((g.player i).hand.getD ci.toNat defaultCard) i ac) →
      ((g.player i).hand.getD ci.toNat defaultCard).type = "creature" →
      7 ≤ (g.player i).field.length →
      g.playCard i ci t ac = (false, g)) := by
  refine ⟨?_, ?_, Game.playCard_oob, Game.playCard_poor, Game.playCard_fullField⟩
  · intro g i ci t htrue
    obtain ⟨h1, h2, h3⟩ := (g.playCard_true_iff i ci t none).mp htrue
    exact g.playCard_accept_mana i ci t none h1 h2 h3
  · intro g i ci t c htrue
    obtain ⟨h1, h2, h3⟩ := (g.playCard_true_iff i ci t (some c)).mp htrue
    exact g.playCard_accept_mana i ci t (some c) h1 h2 h3

/-- A 1-cost Peasant in hand with 1 mana. -/
def affordableGame : Game :=
  { combatGame with p0 := { freshPlayer with hand := [peasantCreature] } }

/-- Witness for C4: an accepted computed-cost play deducts 1 (leaving 0
mana), an accepted overridden play deducts the override 0, and each
rejection leaves the state untouched. -/
theorem C4_effective_cost_amended_witness :
    ((affordableGame.playCard 0 0 .null none).2.player 0).mana = 0 ∧
    ((overrideGame.playCard 0 0 .undef (some 0)).2.player 0).mana = 3 ∧
    combatGame.playCard 0 5 .null none = (false, combatGame) ∧
    manaShortGame.playCard 0 0 .null none = (false, manaShortGame) ∧
    fullFieldGame.playCard 0 0 .null none = (false, fullFieldGame) := by
  refine ⟨?_, ?_, ?_, ?_, ?_⟩
  · have h := C4_effective_cost_amended.1 affordableGame 0 0 .null (by decide)
    rw [h]
    decide
  · have h := C4_effective_cost_amended.2.1 overrideGame 0 0 .undef 0 (by decide)
    rw [h]
    decide
  · exact C4_effective_cost_amended.2.2.1 combatGame 0 5 .null none (by decide)
  · exact C4_effective_cost_amended.2.2.2.1 manaShortGame 0 0 .null none (by decide) (by decide)
  · exact C4_effective_cost_amended.2.2.2.2 fullFieldGame 0 0 .null none
      (by decide) (by decide) (by decide) (by decide)

/-! ### Claim C10 -/

/-- The view slice for one side of the serialised state. -/
def GameView.viewOf (v : GameView) (i : Fin 2) : PlayerView :=
  if i = 0 then v.v0 else v.v1

/-- `g` with player `j`'s hand contents and both decks replaced — the data
`getPlayerState` is meant to hide from `j`'s opponent. -/
def Game.withHidden (g : Game) (j : Fin 2) (h d0 d1 : List Card) : Game :=
  let g := if j = 0 then { g with p0 := { g.p0 with hand := h } }
           else { g with p1 := { g.p1 with hand := h } }
  { g with p0 := { g.p0 with deck := d0 }, p1 := { g.p1 with deck := d1 } }

/-- Claim C10: the view `getPlayerState i` serialises the opponent's hand
as its length only and both decks as lengths only while sending `i`'s own
hand in full, so the view is invariant under any permutation of the
opponent's hand contents and of either deck's remaining order. -/
theorem C10_view_hiding (g : Game) (i : Fin 2) (h d0 d1 : List Card)
    (hh : h.Perm ((g.player (other i)).hand))
    (h0 : d0.Perm g.p0.deck) (h1 : d1.Perm g.p1.deck) :
    (g.withHidden (other i) h d0 d1).getPlayerState i = g.getPlayerState i ∧
    ((g.getPlayerState i).viewOf i).hand = .full (g.player i).hand ∧
    ((g.getPlayerState i).viewOf (other i)).hand =
      .count (g.player (other i)).hand.length ∧
    ((g.getPlayerState i).viewOf 0).deckLength = g.p0.deck.length ∧
    ((g.getPlayerState i).viewOf 1).deckLength = g.p1.deck.length := by
  have hL := hh.length_eq
  have hL0 := h0.length_eq
  have hL1 := h1.length_eq
  fin_cases i <;>
    simp_all [Game.withHidden, Game.getPlayerState, Game.getGameState, viewOfPlayer,
      GameView.viewOf, other, Game.player]

/-- Permuted-opponent-hand / permuted-decks state used by the C10
witness. -/
def viewGame : Game :=
  { combatGame with
    p0 := { freshPlayer with deck := [forestWolf] },
    p1 := { freshPlayer with hand := [peasantCreature, meteorSpell],
                             deck := [shieldBearer] } }

/-- Witness for C10: swapping the two cards of the opponent's hand (and
keeping both one-card decks) leaves player 0's view unchanged. -/
theorem C10_view_hiding_witness :
    (viewGame.withHidden 1 [meteorSpell, peasantCreature] [forestWolf] [shieldBearer]).getPlayerState 0 =
      viewGame.getPlayerState 0 ∧
    ((viewGame.getPlayerState 0).viewOf 1).hand = .count 2 := by
  have h := C10_view_hiding viewGame 0 [meteorSpell, peasantCreature] [forestWolf] [shieldBearer]
    (by decide) (by decide) (by decide)
  have e : other 0 = 1 := by decide
  rw [e] at h
  refine ⟨h.1, ?_⟩
  rw [h.2.2.1]
  decide

/-! ### `startNewTurn` characterisation (for C9) -/

theorem other_ne (i : Fin 2) : other i ≠ i := by
  fin_cases i <;> decide

theorem Game.player_setPlayer_self (g : Game) (i : Fin 2) (p : Player) :
    (g.setPlayer i p).player i = p := by
  rw [Game.player_setPlayer, if_pos rfl]

theorem Game.player_setPlayer_other (g : Game) (i : Fin 2) (p : Player) (j : Fin 2)
    (h : j ≠ i) : (g.setPlayer i p).player j = g.player j := by
  rw [Game.player_setPlayer, if_neg h]

/-- The entry just appended by `addLog` is the last one the truncated log
keeps. -/
theorem Game.addLog_getLast (g : Game) (m : String) :
    (g.addLog m).gameLog.getLast? =
      some { message := m, turn := g.turnNumber, activePlayer := g.currentTurn.val + 1 } := by
  unfold Game.addLog
  dsimp only
  split_ifs with h
  · rw [List.length_append] at h
    rw [List.drop_append_of_le_length (by simp), List.getLast?_concat]
  · rw [List.getLast?_concat]

theorem Game.startNewTurn_player_other (g : Game) (i j : Fin 2) (hj : j ≠ i) :
    (g.startNewTurn i).player j = g.player j := by
  unfold Game.startNewTurn
  dsimp only
  rw [Game.addLog_player, Game.drawCard_player_other _ _ _ hj]
  split_ifs
  · rw [Game.checkGameOver_player, Game.addLog_player,
      Game.player_setPlayer_other _ _ _ _ hj, Game.player_setPlayer_other _ _ _ _ hj]
  · rw [Game.player_setPlayer_other _ _ _ _ hj]

theorem Game.startNewTurn_player_self (g : Game) (i : Fin 2) :
    (g.startNewTurn i).player i =
      (let mm := min 10 ((g.player i).maxMana + 1)
       let burnCount : Int :=
         (((g.player (other i)).field.filter fun c => c.ability == "Burn").length : Int)
       let p : Player :=
         { g.player i with
             maxMana := mm, mana := mm,
             field := (g.player i).field.map Card.resetForTurn,
             health := (g.player i).health - burnCount }
       if (g.player i).deck = [] ∨ ¬((g.player i).hand.length < 10) then p
       else { p with
                hand := (g.player i).hand ++ (g.player i).deck.take 1,
                deck := (g.player i).deck.drop 1 }) := by
  have hoth := other_ne i
  unfold Game.startNewTurn
  dsimp only
  rw [Game.addLog_player, Game.player_setPlayer_other _ _ _ _ hoth]
  by_cases hb : 0 < ((g.player (other i)).field.filter fun c => c.ability == "Burn").length
  · rw [if_pos hb, Game.drawCard_player_self, Game.checkGameOver_player, Game.addLog_player,
      Game.player_setPlayer_self, Game.player_setPlayer_self]
  · rw [if_neg hb, Game.drawCard_player_self, Game.player_setPlayer_self]
    dsimp only
    have h0 : ((g.player (other i)).field.filter fun c => c.ability == "Burn").length = 0 := by
      omega
    rw [h0]
    by_cases hd : (g.player i).deck = [] ∨ ¬((g.player i).hand.length < 10)
    · rw [if_pos hd, if_pos hd]
      simp
    · rw [if_neg hd, if_neg hd]
      simp

theorem Game.startNewTurn_currentTurn (g : Game) (i : Fin 2) :
    (g.startNewTurn i).currentTurn = g.currentTurn := by
  unfold Game.startNewTurn
  dsimp only
  rw [Game.addLog_currentTurn, Game.drawCard_currentTurn]
  split_ifs
  · rw [Game.checkGameOver_currentTurn, Game.addLog_currentTurn,
      Game.setPlayer_currentTurn, Game.setPlayer_currentTurn]
  · rw [Game.setPlayer_currentTurn]

theorem Game.startNewTurn_turnNumber (g : Game) (i : Fin 2) :
    (g.startNewTurn i).turnNumber = g.turnNumber := by
  unfold Game.startNewTurn
  dsimp only
  rw [Game.addLog_turnNumber, Game.drawCard_turnNumber]
  split_ifs
  · rw [Game.checkGameOver_turnNumber, Game.addLog_turnNumber,
      Game.setPlayer_turnNumber, Game.setPlayer_turnNumber]
  · rw [Game.setPlayer_turnNumber]

theorem Game.startNewTurn_totalTurns (g : Game) (i : Fin 2) :
    (g.startNewTurn i).totalTurns = g.totalTurns := by
  unfold Game.startNewTurn
  dsimp only
  rw [Game.addLog_totalTurns, Game.drawCard_totalTurns]
  split_ifs
  · rw [Game.checkGameOver_totalTurns, Game.addLog_totalTurns,
      Game.setPlayer_totalTurns, Game.setPlayer_totalTurns]
  · rw [Game.setPlayer_totalTurns]

/-- The last log entry after `startNewTurn` is the turn-begins message. -/
theorem Game.startNewTurn_log_last (g : Game) (i : Fin 2) :
    (g.startNewTurn i).gameLog.getLast? =
      some { message := "Player " ++ toString (i.val + 1) ++ "\x27s turn begins!",
             turn := g.turnNumber, activePlayer := g.currentTurn.val + 1 } := by
  unfold Game.startNewTurn
  dsimp only
  rw [Game.addLog_getLast, Game.drawCard_turnNumber, Game.drawCard_currentTurn]
  split_ifs
  · rw [Game.checkGameOver_turnNumber, Game.checkGameOver_currentTurn,
      Game.addLog_turnNumber, Game.addLog_currentTurn,
      Game.setPlayer_turnNumber, Game.setPlayer_currentTurn,
      Game.setPlayer_turnNumber, Game.setPlayer_currentTurn]
  · rw [Game.setPlayer_turnNumber, Game.setPlayer_currentTurn]

theorem Game.startNewTurn_gameOver (g : Game) (i : Fin 2) :
    ((g.startNewTurn i).gameOver = true ↔
      (g.gameOver = true ∨
        (0 < ((g.player (other i)).field.filter fun c => c.ability == "Burn").length ∧
          ((g.player i).health -
              (((g.player (other i)).field.filter fun c => c.ability == "Burn").length : Int) ≤ 0 ∨
           (g.player (other i)).health ≤ 0)))) := by
  fin_cases i <;>
    (unfold Game.startNewTurn
     dsimp only
     rw [Game.addLog_gameOver, Game.drawCard_gameOver]
     split_ifs with hb <;>
       (simp_all [Game.checkGameOver_gameOver, Game.addLog, Game.setPlayer, Game.player,
          other]
        try tauto))

/-- Clearing `tempImmune` does not change which creatures count as Burn
creatures. -/
theorem filter_burn_map_clear (l : List Card) :
    (((l.map fun c => { c with tempImmune := false }).filter
        fun c => c.ability == "Burn").length) =
      ((l.filter fun c => c.ability == "Burn").length) := by
  rw [List.filter_map]
  have h : ((fun c : Card => c.ability == "Burn") ∘
      (fun c : Card => { c with tempImmune := false })) =
      (fun c : Card => c.ability == "Burn") := rfl
  rw [h, List.length_map]

/-! ### Claim C9 -/

/-- Claim C9 (counterexample): an accepted `endTurn` whose incoming player
has an empty deck and a hand below capacity draws no card — "exactly one
card is drawn (a silent no-op past hand capacity 10)" fails when the deck
is empty. -/
theorem C9_counterexample :
    (combatGame.endTurn 0).1 = true ∧
    combatGame.p1.deck = [] ∧
    combatGame.p1.hand.length < 10 ∧
    ((combatGame.endTurn 0).2.player 1).hand.length = combatGame.p1.hand.length := by
  decide

/-- Claim C9 (amended): `endTurn(playerIndex)` is rejected with no state
change unless playerIndex is the current turn; on acceptance `tempImmune`
is cleared on both fields, the turn flips, totalTurns increments,
turnNumber increments exactly when play returns to player 0, and the
incoming player's new-turn sequence runs: maxMana +1 capped at 10, mana
refilled, every incoming field creature reset via `resetForTurn`, 1 damage
per opposing Burn creature with game-over checked after, exactly one draw
ATTEMPTED (a card moves from deck to hand iff the deck is non-empty and
the hand is below capacity 10 — an empty deck, like a full hand, is a
silent no-op), and the turn-begins entry is appended to the log. -/
theorem C9_endTurn_amended :
    (∀ (g : Game) (p : Fin 2), g.currentTurn ≠ p → g.endTurn p = (false, g)) ∧
    (∀ (g : Game) (p : Fin 2), g.currentTurn = p →

        (g.endTurn p).1 = true ∧
        (g.endTurn p).2.currentTurn = other p ∧
        (g.endTurn p).2.totalTurns = g.totalTurns + 1 ∧
        (g.endTurn p).2.turnNumber = g.turnNumber + (if other p = 0 then 1 else 0) ∧
        ((g.endTurn p).2.player p).field =
          (g.player p).field.map (fun c => { c with tempImmune := false }) ∧
        ((g.endTurn p).2.player (other p)).field =
          ((g.player (other p)).field.map (fun c => { c with tempImmune := false })).map
            Card.resetForTurn ∧
        ((g.endTurn p).2.player (other p)).maxMana = min 10 ((g.player (other p)).maxMana + 1) ∧
        ((g.endTurn p).2.player (other p)).mana = min 10 ((g.player (other p)).maxMana + 1) ∧
        ((g.endTurn p).2.player (other p)).health =
          (g.player (other p)).health -
            (((g.player p).field.filter fun c => c.ability == "Burn").length : Int) ∧
        ((g.endTurn p).2.player (other p)).hand =
          (if (g.player (other p)).deck = [] ∨ ¬((g.player (other p)).hand.length < 10)
           then (g.player (other p)).hand
           else (g.player (other p)).hand ++ (g.player (other p)).deck.take 1) ∧
        ((g.endTurn p).2.player (other p)).deck =
          (if (g.player (other p)).deck = [] ∨ ¬((g.player (other p)).hand.length < 10)
           then (g.player (other p)).deck
           else (g.player (other p)).deck.drop 1) ∧
        ((g.endTurn p).2.gameOver = true ↔
          (g.gameOver = true ∨
            (0 < ((g.player p).field.filter fun c => c.ability == "Burn").length ∧
              ((g.player (other p)).health -
                  (((g.player p).field.filter fun c => c.ability == "Burn").length : Int) ≤ 0 ∨
               (g.player p).health ≤ 0)))) ∧
        ((g.endTurn p).2.gameLog.getLast?.map LogEntry.message =
          some ("Player " ++ toString ((other p).val + 1) ++ "\x27s turn begins!"))) := by
  refine ⟨Game.endTurn_wrongTurn, ?_⟩
  intro g p h
  fin_cases p
  · simp only [Fin.zero_eta] at h ⊢
    have e1 : other (0 : Fin 2) = 1 := by decide
    unfold Game.endTurn
    rw [if_neg (not_not_intro h)]
    dsimp only
    rw [h]
    simp only [e1]
    rw [if_neg (by decide)]
    dsimp only
    refine ⟨trivial, ?_, ?_, ?_, ?_, ?_, ?_, ?_, ?_, ?_, ?_, ?_, ?_⟩
    · rw [Game.startNewTurn_currentTurn]
    · rw [Game.startNewTurn_totalTurns]
    · rw [Game.startNewTurn_turnNumber]
      simp
    · rw [Game.startNewTurn_player_other _ _ _ (by decide)]
      simp [Game.player]
    · rw [Game.startNewTurn_player_self]
      dsimp only
      split_ifs <;> simp [Game.player, other]
    · rw [Game.startNewTurn_player_self]
      dsimp only
      split_ifs <;> simp [Game.player, other]
    · rw [Game.startNewTurn_player_self]
      dsimp only
      split_ifs <;> simp [Game.player, other]
    · rw [Game.startNewTurn_player_self]
      dsimp only
      split_ifs <;> simp [Game.player, other, filter_burn_map_clear]
    · rw [Game.startNewTurn_player_self]
      dsimp only
      simp [Game.player, other]
      split_ifs <;> simp
    · rw [Game.startNewTurn_player_self]
      dsimp only
      simp [Game.player, other]
      split_ifs <;> simp
    · rw [Game.startNewTurn_gameOver]
      dsimp only
      simp [Game.player, other, filter_burn_map_clear]
    · rw [Game.startNewTurn_log_last]
      simp
  · simp only [Fin.mk_one] at h ⊢
    have e1 : other (1 : Fin 2) = 0 := by decide
    unfold Game.endTurn
    rw [if_neg (not_not_intro h)]
    dsimp only
    rw [h]
    simp only [e1]
    rw [if_pos (by decide)]
    dsimp only
    refine ⟨trivial, ?_, ?_, ?_, ?_, ?_, ?_, ?_, ?_, ?_, ?_, ?_, ?_⟩
    · rw [Game.startNewTurn_currentTurn]
    · rw [Game.startNewTurn_totalTurns]
    · rw [Game.startNewTurn_turnNumber]
      simp
    · rw [Game.startNewTurn_player_other _ _ _ (by decide)]
      simp [Game.player]
    · rw [Game.startNewTurn_player_self]
      dsimp only
      split_ifs <;> simp [Game.player, other]
    · rw [Game.startNewTurn_player_self]
      dsimp only
      split_ifs <;> simp [Game.player, other]
    · rw [Game.startNewTurn_player_self]
      dsimp only
      split_ifs <;> simp [Game.player, other]
    · rw [Game.startNewTurn_player_self]
      dsimp only
      split_ifs <;> simp [Game.player, other, filter_burn_map_clear]
    · rw [Game.startNewTurn_player_self]
      dsimp only
      simp [Game.player, other]
      split_ifs <;> simp
    · rw [Game.startNewTurn_player_self]
      dsimp only
      simp [Game.player, other]
      split_ifs <;> simp
    · rw [Game.startNewTurn_gameOver]
      dsimp only
      simp [Game.player, other, filter_burn_map_clear]
    · rw [Game.startNewTurn_log_last]
      simp

/-- Witness for C9: the concrete Forest-Wolf/Shield-Bearer state — a
wrong-turn `endTurn` changes nothing, while the accepted one flips the
turn and refills the incoming player's mana to the new 1-point maximum. -/
theorem C9_endTurn_amended_witness :
    combatGame.endTurn 1 = (false, combatGame) ∧
    (combatGame.endTurn 0).1 = true ∧
    (combatGame.endTurn 0).2.currentTurn = 1 ∧
    ((combatGame.endTurn 0).2.player 1).mana = 1 := by
  have hrej := C9_endTurn_amended.1 combatGame 1 (by decide)
  have hacc := C9_endTurn_amended.2 combatGame 0 (by decide)
  have e : other (0 : Fin 2) = 1 := by decide
  rw [e] at hacc
  refine ⟨hrej, hacc.1, hacc.2.1, ?_⟩
  rw [hacc.2.2.2.2.2.2.2.1]
  decide
